import Mathlib

/-!
# remove_reachability: obstacle filtering of a reachability map

A shallow embedding of `map_creator/src/remove_reachability.cpp`.

Conventions of the embedding.

* Message types (`map_creator::WorkSpace`, `map_creator::WsSphere`,
  `geometry_msgs::Point32`) and `pcl::PointXYZ` are structures; the fields the
  program never looks at are kept as type parameters (`H` for the header, `M`
  for the remaining fields of a sphere).
* Scalars live in a linearly ordered field `F` and arithmetic is exact. The one
  place where the program changes precision on stored data, the assignment of
  the `double` entries of the point set to the `float` fields of
  `pcl::PointXYZ`, is kept as the explicit conversion `toFloat`.
* `pcl::octree::OctreePointCloudSearch` and `octomap::OcTree` are libraries
  outside the repository: the classifier and the decoder take them as
  parameters (records of their query functions). `sqrt(3)` is the parameter
  `sqrt3`.
* Reference parameters that are written (`filtered_map`, `colliding_map`,
  `obstacle_vertices`) are passed in and returned.
* The loop of `spin` is a function of a schedule: for each cycle, the messages
  whose callbacks ran since the previous cycle. A cycle returns the state it
  leaves and the calls of `publish` it made, in order.
-/

namespace RemoveReachability

/-! ## Data model -/

/-- The message type geometry_msgs::Point32. -/
structure Point32 (F : Type) where
  x : F
  y : F
  z : F
deriving DecidableEq, Repr

/-- The point type pcl::PointXYZ. -/
structure PointXYZ (F : Type) where
  x : F
  y : F
  z : F
deriving DecidableEq, Repr

/-- The message type map_creator::WsSphere: its point and, opaquely, everything else. -/
structure WsSphere (F M : Type) where
  point : Point32 F
  rest : M
deriving DecidableEq, Repr

/-- The message type map_creator::WorkSpace. -/
structure WorkSpace (H F M : Type) where
  header : H
  WsSpheres : List (WsSphere F M)
  resolution : F
deriving DecidableEq, Repr

/-- The enumeration remove_obstacles_reachability::filterType. -/
inductive filterType where
  | VOXEL
  | INSCRIBED_SPHERE
  | CIRCUMSCRIBED_SPHERE
deriving DecidableEq, Repr

/-- The two queries of pcl::octree::OctreePointCloudSearch used by the classifier,
each returning the indices it writes to `point_idx_vec`. -/
structure OctreePointCloudSearch (F : Type) where
  voxelSearch : PointXYZ F → List Nat
  radiusSearch : PointXYZ F → F → List Nat

/-- One position of an octomap leaf iterator: what `getX`, `getY`, `getZ`,
`getSize` and `isNodeOccupied` return there. -/
structure OcTreeLeaf (D : Type) where
  getX : D
  getY : D
  getZ : D
  getSize : D
  isNodeOccupied : Bool
deriving DecidableEq, Repr

/-- The part of octomap::OcTree the decoder uses: the tree depth and, for a
maximum depth, the leaves visited from `begin_leafs` to `end_leafs`, in order. -/
structure OcTree (D : Type) where
  getTreeDepth : Nat
  begin_leafs : Nat → List (OcTreeLeaf D)

/-- The data members of the class remove_obstacles_reachability (the node handle,
subscribers and publishers apart). `collision_octree_` is a pointer that the
constructor leaves unset. -/
structure remove_obstacles_reachability (H D F M : Type) where
  scene_rcvd_ : Bool
  map_rcvd_ : Bool
  collision_octree_ : Option (OcTree D)
  reachability_map_ : WorkSpace H F M
  reachability_resolution_ : F

/-! ## Sample classifier (`createFilteredReachability`) -/

section Classifier

variable {H D F M : Type} [LinearOrderedField F]

/-- Lines 105-130: the search point of a sample and the `switch` over the filter
type, giving the content of `point_idx_vec` after the query. -/
def point_idx_vec (sqrt3 : F) (self : remove_obstacles_reachability H D F M) (type : filterType)
    (search_tree : OctreePointCloudSearch F) (sphere : WsSphere F M) : List Nat :=
  let circumscribe_reachability_radius : F := sqrt3 * self.reachability_resolution_ / 2
  let inscribe_reachability_radius : F := self.reachability_resolution_ / 2
  let voxel_center := sphere.point
  let search_point : PointXYZ F := ⟨voxel_center.x, voxel_center.y, voxel_center.z⟩
  match type with
  | filterType.VOXEL => search_tree.voxelSearch search_point
  | filterType.INSCRIBED_SPHERE =>
      search_tree.radiusSearch search_point inscribe_reachability_radius
  | filterType.CIRCUMSCRIBED_SPHERE =>
      search_tree.radiusSearch search_point circumscribe_reachability_radius

/-- Lines 103-141: one iteration of the loop over `reachability_map_.WsSpheres`,
acting on the pair (filtered_map, colliding_map). -/
def classifyStep (sqrt3 : F) (self : remove_obstacles_reachability H D F M) (type : filterType)
    (search_tree : OctreePointCloudSearch F)
    (maps : WorkSpace H F M × WorkSpace H F M) (sphere : WsSphere F M) :
    WorkSpace H F M × WorkSpace H F M :=
  if (point_idx_vec sqrt3 self type search_tree sphere).length = 0 then
    ({ maps.1 with WsSpheres := maps.1.WsSpheres ++ [sphere] }, maps.2)
  else
    (maps.1, { maps.2 with WsSpheres := maps.2.WsSpheres ++ [sphere] })

/-- The method createFilteredReachability (lines 94-145). The result is the pair
(filtered_map, colliding_map) after the call. The loop over the indices
`i = 0, ..., WsSpheres.size() - 1` reads each sample once, in order: it is the
fold over the list of samples. -/
def createFilteredReachability (sqrt3 : F) (self : remove_obstacles_reachability H D F M)
    (type : filterType) (search_tree : OctreePointCloudSearch F)
    (filtered_map colliding_map : WorkSpace H F M) : WorkSpace H F M × WorkSpace H F M :=
  let filtered_map := { filtered_map with
    header := self.reachability_map_.header, resolution := self.reachability_map_.resolution }
  let colliding_map := { colliding_map with
    header := self.reachability_map_.header, resolution := self.reachability_map_.resolution }
  self.reachability_map_.WsSpheres.foldl (classifyStep sqrt3 self type search_tree)
    (filtered_map, colliding_map)

end Classifier

/-! ## Spatial index (the queries of section 4.2 of the specification) -/

/-- Indices (counted from `i`) of the entries of a cloud that satisfy `keep`. -/
def matchingIndices {P : Type} (keep : P → Bool) : List P → Nat → List Nat
  | [], _ => []
  | q :: cloud, i =>
      if keep q then i :: matchingIndices keep cloud (i + 1) else matchingIndices keep cloud (i + 1)

section Index

variable {F : Type} [LinearOrderedField F]

/-- Squared Euclidean distance of two points. -/
def sqDist (p q : PointXYZ F) : F :=
  (p.x - q.x) * (p.x - q.x) + (p.y - q.y) * (p.y - q.y) + (p.z - q.z) * (p.z - q.z)

/-- Discretization cell of a point on the grid of cell size `resolution` through `origin`. -/
def cellOf [FloorRing F] (origin : PointXYZ F) (resolution : F) (p : PointXYZ F) : ℤ × ℤ × ℤ :=
  (⌊(p.x - origin.x) / resolution⌋, ⌊(p.y - origin.y) / resolution⌋,
    ⌊(p.z - origin.z) / resolution⌋)

/-- Modelled from the spec: the spatial index built from an obstacle point set at
a resolution (PCL's octree, constructed in `spin` at lines 168-170, is not part
of the repository). The voxel membership query returns the obstacle points in
the same discretization cell (of size = resolution) as the query point; the
radius query returns all obstacle points within the given Euclidean radius of
the query point, i.e. `0 ≤ radius` and squared distance at most `radius²`. The
specification leaves the alignment of the grid open: it is the parameter `origin`. -/
def buildSearchTree [FloorRing F] (origin : PointXYZ F) (resolution : F) (cloud : List (PointXYZ F)) :
    OctreePointCloudSearch F where
  voxelSearch := fun p =>
    matchingIndices (fun q => decide (cellOf origin resolution q = cellOf origin resolution p))
      cloud 0
  radiusSearch := fun p radius =>
    matchingIndices (fun q => decide (0 ≤ radius) && decide (sqDist q p ≤ radius * radius))
      cloud 0

/-- The query of the classification table of the specification (section 4.3):
voxel membership for VOXEL, radius `resolution / 2` for INSCRIBED_SPHERE and
radius `resolution * sqrt(3) / 2` for CIRCUMSCRIBED_SPHERE. -/
def specQuery (sqrt3 : F) (search_tree : OctreePointCloudSearch F) (resolution : F) :
    filterType → PointXYZ F → List Nat
  | filterType.VOXEL, p => search_tree.voxelSearch p
  | filterType.INSCRIBED_SPHERE, p => search_tree.radiusSearch p (resolution / 2)
  | filterType.CIRCUMSCRIBED_SPHERE, p => search_tree.radiusSearch p (resolution * sqrt3 / 2)

end Index

/-! ## Obstacle-volume decoder (`createObstaclesPointCloud`) -/

section Decoder

variable {D F : Type} [LinearOrderedField D]

/-- The order of `std::vector<double>` used by `std::set`: lexicographic comparison. -/
def vecLt : List D → List D → Bool
  | [], [] => false
  | [], _ :: _ => true
  | _ :: _, [] => false
  | a :: as, b :: bs => if a < b then true else if b < a then false else vecLt as bs

/-- Insertion into a `std::set<std::vector<double> >`, the set being the list of
its elements in increasing order: an element equivalent to one already present
is not inserted. -/
def setInsert (v : List D) : List (List D) → List (List D)
  | [] => [v]
  | w :: ws =>
      if vecLt v w then v :: w :: ws
      else if vecLt w v then w :: setInsert v ws
      else w :: ws

/-- The values taken by each of the loop variables `dx`, `dy`, `dz` (lines 60-64). -/
def offsetRange : List ℤ := [-1, 0, 1]

/-- Lines 66-75: the body of the innermost loop. -/
def insertPoint (it : OcTreeLeaf D) (voxel_size : D) (dx dy dz : ℤ)
    (points_set : List (List D)) : List (List D) :=
  let point_center : List D := [it.getX, it.getY, it.getZ]
  let points_set := setInsert point_center points_set
  let point : List D :=
    [it.getX + ((dx : D) * voxel_size / 2), it.getY + ((dy : D) * voxel_size / 2),
      it.getZ + ((dz : D) * voxel_size / 2)]
  setInsert point points_set

/-- Lines 57-79: the body of the loop over the leaves. -/
def insertLeaf (points_set : List (List D)) (it : OcTreeLeaf D) : List (List D) :=
  if it.isNodeOccupied then
    let voxel_size := it.getSize
    offsetRange.foldl (fun ps dx =>
      offsetRange.foldl (fun ps dy =>
        offsetRange.foldl (fun ps dz => insertPoint it voxel_size dx dy dz ps) ps) ps) points_set
  else points_set

/-- Lines 46-80: the set `points_set` when the loop over the leaves has finished. -/
def points_set (tree : OcTree D) : List (List D) :=
  let max_depth := tree.getTreeDepth
  (tree.begin_leafs max_depth).foldl insertLeaf []

/-- Lines 86-90: the cloud point made from an element of the set. -/
def cloud_point (toFloat : D → F) (it : List D) : PointXYZ F :=
  ⟨toFloat (it.getD 0 0), toFloat (it.getD 1 0), toFloat (it.getD 2 0)⟩

/-- The method createObstaclesPointCloud (lines 44-92); the result is the cloud
`obstacle_vertices` after the call. -/
def createObstaclesPointCloud (toFloat : D → F) (tree : OcTree D)
    (obstacle_vertices : List (PointXYZ F)) : List (PointXYZ F) :=
  let obstacle_vertices := if !obstacle_vertices.isEmpty then [] else obstacle_vertices
  (points_set tree).foldl (fun cloud it => cloud ++ [cloud_point toFloat it]) obstacle_vertices

/-- The 27 triples (dx, dy, dz) with dx, dy, dz in {-1, 0, 1}. -/
def offsetTriples : List (ℤ × ℤ × ℤ) :=
  offsetRange.flatMap
    (fun dx => offsetRange.flatMap (fun dy => offsetRange.map (fun dz => (dx, dy, dz))))

/-- The lattice point c + (dx, dy, dz) * s / 2 of a leaf of center c and edge length s. -/
def latticePoint (it : OcTreeLeaf D) (d : ℤ × ℤ × ℤ) : List D :=
  [it.getX + ((d.1 : D) * it.getSize / 2), it.getY + ((d.2.1 : D) * it.getSize / 2),
    it.getZ + ((d.2.2 : D) * it.getSize / 2)]

end Decoder

/-! ## Conversion of a `double` to a `float` -/

/-- Rounding of a rational to the nearest integer, ties to the even one. -/
def roundHalfEven (q : ℚ) : ℤ :=
  let f := ⌊q⌋
  let r := q - f
  if r < 1 / 2 then f else if 1 / 2 < r then f + 1 else if f % 2 = 0 then f else f + 1

/-- Number of halvings of `n` that stay at least 1, at most `fuel` of them. -/
def halvings : Nat → Nat → Nat
  | 0, _ => 0
  | fuel + 1, n => if 2 ≤ n then halvings fuel (n / 2) + 1 else 0

/-- Binary logarithm of a natural number, rounded down (0 at 0). -/
def log2floor (n : Nat) : Nat := halvings n n

/-- The exponent `e` with `2 ^ e ≤ |q| < 2 ^ (e + 1)`, for `q ≠ 0`. -/
def binade (q : ℚ) : ℤ :=
  let k : ℤ := (log2floor q.num.natAbs : ℤ) - (log2floor q.den : ℤ)
  if (2 : ℚ) ^ k ≤ |q| then k else k - 1

/-- The value of a finite `double` after conversion to `float` (IEEE 754 binary32:
24 significant bits, least exponent -126, round to nearest, ties to even), for
values below the overflow threshold. -/
def toFloat32 (q : ℚ) : ℚ :=
  if q = 0 then 0
  else
    let e := max (binade q) (-126)
    let ulp : ℚ := (2 : ℚ) ^ (e - 23)
    (roundHalfEven (q / ulp) : ℚ) * ulp

/-! ## Orchestration loop (the constructor, `readPlanningScene`, `readMap`, `spin`) -/

/-- The message octomap_msgs::Octomap: its data and, opaquely, everything else. -/
structure Octomap (O : Type) where
  data : List Int
  rest : O

/-- The message moveit_msgs::PlanningScene, of which the program reads only
`world.octomap.octomap`. -/
structure PlanningScene (O : Type) where
  world_octomap_octomap : Octomap O

/-- A call of `publish`, on `pub_colliding_reachability_` or on
`pub_filtered_reachability_`, with the message published. -/
inductive Publication (H F M : Type) where
  | colliding_reachability (msg : WorkSpace H F M)
  | filtered_reachability (msg : WorkSpace H F M)
deriving DecidableEq, Repr

/-- The state of the loop of `spin`: the members of the node and the local
variable `obstacles_cloud`. -/
structure SpinState (H D F M : Type) where
  self : remove_obstacles_reachability H D F M
  obstacles_cloud : List (PointXYZ F)

/-- What one pass through the body of the loop of `spin` leaves: the state, whether
the branch of line 153 ran the decoder, and the calls of `publish`, in order. -/
structure CycleResult (H D F M : Type) where
  state : SpinState H D F M
  decoded : Bool
  published : List (Publication H F M)

/-- A message handed to one of the two subscriber callbacks. -/
inductive Delivery (O H F M : Type) where
  | planning_scene (scene_msg : PlanningScene O)
  | reachability_map (msg : WorkSpace H F M)

section Orchestration

variable {O H D F M : Type}

/-- The constructor (lines 5-12): both flags false, the map default-constructed.
The constructor assigns neither `collision_octree_` nor
`reachability_resolution_`; the value the latter happens to hold is a parameter. -/
def remove_obstacles_reachability.construct [Inhabited H] [Zero F]
    (reachability_resolution_ : F) : remove_obstacles_reachability H D F M where
  scene_rcvd_ := false
  map_rcvd_ := false
  collision_octree_ := none
  reachability_map_ := ⟨default, [], 0⟩
  reachability_resolution_ := reachability_resolution_

/-- The callback readPlanningScene (lines 20-31). `msgToMap` is
`octomap_msgs::msgToMap` (outside the repository); it may return a null pointer. -/
def readPlanningScene (msgToMap : Octomap O → Option (OcTree D))
    (self : remove_obstacles_reachability H D F M) (scene_msg : PlanningScene O) :
    remove_obstacles_reachability H D F M :=
  let self := { self with scene_rcvd_ := false }
  if scene_msg.world_octomap_octomap.data.length > 0 then
    let octomap := scene_msg.world_octomap_octomap
    let abstract_tree := msgToMap octomap
    { self with collision_octree_ := abstract_tree, scene_rcvd_ := true }
  else self

/-- The callback readMap (lines 33-40). -/
def readMap (self : remove_obstacles_reachability H D F M) (msg : WorkSpace H F M) :
    remove_obstacles_reachability H D F M :=
  { self with
    reachability_map_ := msg, reachability_resolution_ := msg.resolution, map_rcvd_ := true }

/-- The callback that a delivery runs. -/
def deliver (msgToMap : Octomap O → Option (OcTree D))
    (self : remove_obstacles_reachability H D F M) :
    Delivery O H F M → remove_obstacles_reachability H D F M
  | Delivery.planning_scene scene_msg => readPlanningScene msgToMap self scene_msg
  | Delivery.reachability_map msg => readMap self msg

variable [LinearOrderedField D] [LinearOrderedField F] [Inhabited H]

/-- Lines 153-163 of the body of the loop of `spin`: the cloud after the branch
on `scene_rcvd_`, and whether the decoder ran. The result is `none` when the
decoder is called on the pointer `collision_octree_` while it is unset or null. -/
def decodeStep (toFloat : D → F) (st : SpinState H D F M) :
    Option (List (PointXYZ F) × Bool) :=
  if st.self.scene_rcvd_ then
    match st.self.collision_octree_ with
    | none => none
    | some tree => some (createObstaclesPointCloud toFloat tree st.obstacles_cloud, true)
  else some (st.obstacles_cloud, false)

/-- Lines 165-183 of the body of the loop of `spin`: the calls of `publish`, in
order. `buildIndex` stands for lines 168-170: the construction of the PCL octree
at a resolution and the insertion of the cloud. -/
def publishStep (sqrt3 : F)
    (buildIndex : F → List (PointXYZ F) → OctreePointCloudSearch F)
    (filter_type : filterType) (self : remove_obstacles_reachability H D F M)
    (obstacles_cloud : List (PointXYZ F)) : List (Publication H F M) :=
  if self.map_rcvd_ && obstacles_cloud.length != 0 then
    let obstacles_tree := buildIndex self.reachability_resolution_ obstacles_cloud
    let filtered_map : WorkSpace H F M := ⟨default, [], 0⟩
    let colliding_map : WorkSpace H F M := ⟨default, [], 0⟩
    let maps := createFilteredReachability sqrt3 self filter_type obstacles_tree
      filtered_map colliding_map
    [Publication.colliding_reachability maps.2, Publication.filtered_reachability maps.1]
  else []

/-- One pass through the body of the loop of `spin` (lines 153-183). -/
def spinCycle (sqrt3 : F) (toFloat : D → F)
    (buildIndex : F → List (PointXYZ F) → OctreePointCloudSearch F)
    (filter_type : filterType) (st : SpinState H D F M) : Option (CycleResult H D F M) :=
  match decodeStep toFloat st with
  | none => none
  | some (obstacles_cloud, decoded) =>
      some ⟨⟨st.self, obstacles_cloud⟩, decoded,
        publishStep sqrt3 buildIndex filter_type st.self obstacles_cloud⟩

/-- The loop of `spin` from a given state: one entry of the schedule per cycle
run while `ros::ok()` holds, listing the messages whose callbacks ran since the
previous cycle. Callbacks are taken to run between two passes through the body.
The result lists what each cycle published. -/
def spinLoop (sqrt3 : F) (toFloat : D → F)
    (buildIndex : F → List (PointXYZ F) → OctreePointCloudSearch F)
    (msgToMap : Octomap O → Option (OcTree D)) (filter_type : filterType) :
    SpinState H D F M → List (List (Delivery O H F M)) → Option (List (List (Publication H F M)))
  | _, [] => some []
  | st, deliveries :: schedule =>
      match spinCycle sqrt3 toFloat buildIndex filter_type
          ⟨deliveries.foldl (deliver msgToMap) st.self, st.obstacles_cloud⟩ with
      | none => none
      | some cycle =>
          match spinLoop sqrt3 toFloat buildIndex msgToMap filter_type cycle.state schedule with
          | none => none
          | some published => some (cycle.published :: published)

/-- The method spin (lines 147-188): the loop started with the empty cloud of
line 150. -/
def spin (sqrt3 : F) (toFloat : D → F)
    (buildIndex : F → List (PointXYZ F) → OctreePointCloudSearch F)
    (msgToMap : Octomap O → Option (OcTree D)) (filter_type : filterType)
    (self : remove_obstacles_reachability H D F M) (schedule : List (List (Delivery O H F M))) :
    Option (List (List (Publication H F M))) :=
  spinLoop sqrt3 toFloat buildIndex msgToMap filter_type ⟨self, []⟩ schedule

end Orchestration

/-! ## Program entry (`main`) -/

/-- The calls of `main` that follow the selection of the filter type, and the
call of `ros::shutdown` of the selection. -/
inductive MainCall where
  | ros_shutdown
  | ros_init
  | spinner_start
  | construct_rm
  | spin (filter_type : Option filterType)
deriving DecidableEq, Repr

/-- Line 204: `std::transform` with `::tolower` over the argument. -/
def tolower (input : String) : String := input.map Char.toLower

/-- Lines 193-226: the value of the local variable `filter_type` after the
selection (`none`: never assigned) and the calls made during the selection.
The result is `none` when `argv[1]` is read outside of `argv`. -/
def selectFilterType (argv : List String) : Option (Option filterType × List MainCall) :=
  let argc := argv.length
  if argc = 1 then
    some (some filterType.CIRCUMSCRIBED_SPHERE, [])
  else
    match argv.get? 1 with
    | none => none
    | some arg =>
        let input := tolower arg
        if input = "voxel" then some (some filterType.VOXEL, [])
        else if input = "circumscribe" then some (some filterType.CIRCUMSCRIBED_SPHERE, [])
        else if input = "inscribe" then some (some filterType.INSCRIBED_SPHERE, [])
        else some (none, [MainCall.ros_shutdown])

/-- The function main (lines 191-234): the sequence of calls it makes, ending with
`rm.spin(filter_type)`. -/
def main (argv : List String) : Option (List MainCall) :=
  match selectFilterType argv with
  | none => none
  | some (filter_type, calls) =>
      some (calls ++ [MainCall.ros_init, MainCall.spinner_start, MainCall.construct_rm,
        MainCall.spin filter_type])

/-! ## Example data -/

/-- A node that has cached a map of resolution 1 with the samples (0,0,0) and (5,5,5). -/
def exampleNode : remove_obstacles_reachability String ℚ ℚ Nat where
  scene_rcvd_ := false
  map_rcvd_ := true
  collision_octree_ := none
  reachability_map_ := ⟨"base_link", [⟨⟨0, 0, 0⟩, 1⟩, ⟨⟨5, 5, 5⟩, 2⟩], 1⟩
  reachability_resolution_ := 1

/-- A default-constructed `map_creator::WorkSpace`. -/
def freshMap : WorkSpace String ℚ Nat := ⟨"", [], 0⟩

/-- The obstacle cloud with the single point (0,0,0). -/
def exampleCloud : List (PointXYZ ℚ) := [⟨0, 0, 0⟩]

/-- The `double` nearest to the square root of 3. -/
def sqrt3Double : ℚ := 7800463371553962 / 2 ^ 52

/-- A volume with one occupied leaf: center (0,0,0), edge length 2. -/
def singleLeafTree : OcTree ℚ :=
  ⟨16, fun _ => [⟨0, 0, 0, 2, true⟩]⟩

/-- The `double` nearest to 0.05. -/
def double_0_05 : ℚ := 7205759403792794 / 2 ^ 57

/-- The `double` nearest to 0.1. -/
def double_0_1 : ℚ := 7205759403792794 / 2 ^ 56

/-- The `double` that `1.5 * 0.1` evaluates to (0.15000000000000002). -/
def double_0_15 : ℚ := 5404319552844596 / 2 ^ 55

/-- A volume of resolution 0.1 with two occupied leaves at maximum depth that are
neighbours along x (keys 32768 and 32769): the centers are the values of
`0.5 * 0.1` and `1.5 * 0.1`, the edge length is 0.1. -/
def adjacentLeavesTree : OcTree ℚ :=
  ⟨16, fun _ =>
    [⟨double_0_05, double_0_05, double_0_05, double_0_1, true⟩,
     ⟨double_0_15, double_0_05, double_0_05, double_0_1, true⟩]⟩

/-- A volume without occupied leaf: its one leaf is free. -/
def freeLeafTree : OcTree ℚ :=
  ⟨16, fun _ => [⟨0, 0, 0, 2, false⟩]⟩

/-- A decoder of octomap messages that returns the volume with one occupied leaf. -/
def exampleMsgToMap : Octomap Unit → Option (OcTree ℚ) := fun _ => some singleLeafTree

/-- A planning-scene message that carries octomap data. -/
def sceneWithData : PlanningScene Unit := ⟨⟨[1], ()⟩⟩

/-- A planning-scene message whose octomap data is empty. -/
def sceneWithoutData : PlanningScene Unit := ⟨⟨[], ()⟩⟩

/-- The node as the constructor leaves it. -/
def constructedNode : remove_obstacles_reachability String ℚ ℚ Nat :=
  remove_obstacles_reachability.construct 0

/-- The example node when a volume without occupied leaf has just arrived. -/
def nodeWithFreeVolume : remove_obstacles_reachability String ℚ ℚ Nat :=
  { exampleNode with scene_rcvd_ := true, collision_octree_ := some freeLeafTree }

/-- The example node when the volume with one occupied leaf has just arrived. -/
def nodeWithVolume : remove_obstacles_reachability String ℚ ℚ Nat :=
  readPlanningScene exampleMsgToMap exampleNode sceneWithData

/-- A sample at (1/2,1/2,1/2), the center of the cell [0,1)³ of the grid of
resolution 1 through the origin. -/
def cellCenterSample : WsSphere ℚ Nat := ⟨⟨1 / 2, 1 / 2, 1 / 2⟩, 7⟩

/-- A node that has cached a map of resolution 1 with the sample at the center of
the cell [0,1)³. -/
def cellCenterNode : remove_obstacles_reachability String ℚ ℚ Nat where
  scene_rcvd_ := false
  map_rcvd_ := true
  collision_octree_ := none
  reachability_map_ := ⟨"base_link", [cellCenterSample], 1⟩
  reachability_resolution_ := 1

/-! ## Theorems: sample classifier -/

/-- The index list of `matchingIndices` is empty exactly when no entry is kept. -/
theorem matchingIndices_eq_nil_iff {P : Type} (keep : P → Bool) (cloud : List P)
    (i : Nat) : matchingIndices keep cloud i = [] ↔ ∀ q ∈ cloud, keep q = false := by
  induction cloud generalizing i with
  | nil => simp [matchingIndices]
  | cons q rest ih =>
    by_cases h : keep q = true
    · simp [matchingIndices, h]
    · simp [matchingIndices, h, ih]

section ClassifierLemmas

variable {H D F M : Type} [LinearOrderedField F]

/-- The loop of the classifier appends to the first map the samples whose query
is empty and to the second map the other samples, both in input order. -/
theorem foldl_classifyStep (sqrt3 : F) (self : remove_obstacles_reachability H D F M)
    (type : filterType) (search_tree : OctreePointCloudSearch F)
    (input : List (WsSphere F M)) (f c : WorkSpace H F M) :
    input.foldl (classifyStep sqrt3 self type search_tree) (f, c) =
      ({ f with WsSpheres := f.WsSpheres ++
          input.filter (fun s => decide ((point_idx_vec sqrt3 self type search_tree s).length = 0)) },
       { c with WsSpheres := c.WsSpheres ++
          input.filter (fun s => !decide ((point_idx_vec sqrt3 self type search_tree s).length = 0)) })
      := by
  induction input generalizing f c with
  | nil => simp
  | cons s rest ih =>
    rw [List.foldl_cons, ih]
    by_cases h : (point_idx_vec sqrt3 self type search_tree s).length = 0
    · have h0 : point_idx_vec sqrt3 self type search_tree s = [] := List.length_eq_zero.mp h
      simp [classifyStep, h0, List.filter_cons]
    · have h0 : point_idx_vec sqrt3 self type search_tree s ≠ [] :=
        fun e => h (List.length_eq_zero.mpr e)
      simp [classifyStep, h0, List.filter_cons]

/-- Sample lists of the two outputs of the classifier, for any output maps passed in. -/
theorem createFilteredReachability_WsSpheres (sqrt3 : F)
    (self : remove_obstacles_reachability H D F M)
    (type : filterType) (search_tree : OctreePointCloudSearch F)
    (filtered_map colliding_map : WorkSpace H F M) :
    (createFilteredReachability sqrt3 self type search_tree filtered_map colliding_map).1.WsSpheres
        = filtered_map.WsSpheres ++ self.reachability_map_.WsSpheres.filter
            (fun s => decide ((point_idx_vec sqrt3 self type search_tree s).length = 0)) ∧
    (createFilteredReachability sqrt3 self type search_tree filtered_map colliding_map).2.WsSpheres
        = colliding_map.WsSpheres ++ self.reachability_map_.WsSpheres.filter
            (fun s => !decide ((point_idx_vec sqrt3 self type search_tree s).length = 0)) := by
  simp [createFilteredReachability, foldl_classifyStep]

/-- Sample lists of the two outputs of the classifier when the output maps passed
in hold no samples. -/
theorem createFilteredReachability_fresh (sqrt3 : F)
    (self : remove_obstacles_reachability H D F M)
    (type : filterType) (search_tree : OctreePointCloudSearch F)
    (filtered_map colliding_map : WorkSpace H F M)
    (hf : filtered_map.WsSpheres = []) (hc : colliding_map.WsSpheres = []) :
    (createFilteredReachability sqrt3 self type search_tree filtered_map colliding_map).1.WsSpheres
        = self.reachability_map_.WsSpheres.filter
            (fun s => decide ((point_idx_vec sqrt3 self type search_tree s).length = 0)) ∧
    (createFilteredReachability sqrt3 self type search_tree filtered_map colliding_map).2.WsSpheres
        = self.reachability_map_.WsSpheres.filter
            (fun s => !decide ((point_idx_vec sqrt3 self type search_tree s).length = 0)) := by
  have h := createFilteredReachability_WsSpheres sqrt3 self type search_tree
    filtered_map colliding_map
  rw [hf, hc, List.nil_append, List.nil_append] at h
  exact h

/-- The query of the source agrees with the query of the classification table. -/
theorem point_idx_vec_eq_specQuery (sqrt3 : F) (self : remove_obstacles_reachability H D F M)
    (type : filterType) (search_tree : OctreePointCloudSearch F) (s : WsSphere F M) :
    point_idx_vec sqrt3 self type search_tree s =
      specQuery sqrt3 search_tree self.reachability_resolution_ type
        ⟨s.point.x, s.point.y, s.point.z⟩ := by
  cases type
  · rfl
  · rfl
  · simp only [point_idx_vec, specQuery, mul_comm sqrt3]

/-- The radius query of the modelled index is monotone in a non-negative radius:
a query that finds a point still finds one at a larger radius. -/
theorem radiusSearch_mono [FloorRing F] (origin : PointXYZ F) (resolution : F)
    (cloud : List (PointXYZ F)) (p : PointXYZ F) (r1 r2 : F) (h12 : r1 ≤ r2)
    (h : (buildSearchTree origin resolution cloud).radiusSearch p r2 = []) :
    (buildSearchTree origin resolution cloud).radiusSearch p r1 = [] := by
  simp only [buildSearchTree, matchingIndices_eq_nil_iff] at h ⊢
  intro q hq
  have hq2 := h q hq
  simp only [Bool.and_eq_false_imp, decide_eq_true_eq, decide_eq_false_iff_not, not_le] at hq2 ⊢
  intro h0
  have h2 : 0 ≤ r2 := le_trans h0 h12
  have hlt := hq2 h2
  have : r1 * r1 ≤ r2 * r2 := mul_le_mul h12 h12 h0 h2
  exact lt_of_le_of_lt this hlt

/-- The queries of the scenario: with resolution 1 and the one-point cloud
(0,0,0), whatever the alignment of the grid, every policy finds a point at
(0,0,0) and none at (5,5,5). -/
theorem point_idx_vec_scenario [FloorRing F] (sqrt3 : F)
    (self : remove_obstacles_reachability H D F M) (origin : PointXYZ F)
    (type : filterType) (m1 m2 : M)
    (hres : self.reachability_resolution_ = 1)
    (h1 : 1 ≤ sqrt3) (h2 : sqrt3 ≤ 2) :
    point_idx_vec sqrt3 self type (buildSearchTree origin 1 [⟨0, 0, 0⟩]) ⟨⟨0, 0, 0⟩, m1⟩ ≠ [] ∧
    point_idx_vec sqrt3 self type (buildSearchTree origin 1 [⟨0, 0, 0⟩]) ⟨⟨5, 5, 5⟩, m2⟩ = [] := by
  have hfloor : ⌊-origin.x⌋ ≠ ⌊5 - origin.x⌋ := by
    have e : 5 - origin.x = -origin.x + ((5 : ℤ) : F) := by
      push_cast; ring
    rw [e, Int.floor_add_int]
    omega
  cases type
  · simp [point_idx_vec, buildSearchTree, matchingIndices, cellOf]
    intro h
    exact absurd h hfloor
  · constructor
    · simp [point_idx_vec, buildSearchTree, matchingIndices, sqDist, hres]
    · simp [point_idx_vec, buildSearchTree, matchingIndices, sqDist, hres]
      norm_num
  · constructor
    · simp [point_idx_vec, buildSearchTree, matchingIndices, sqDist, hres]
      have h0 : 0 ≤ sqrt3 / 2 := by linarith
      exact ⟨h0, mul_nonneg h0 h0⟩
    · simp [point_idx_vec, buildSearchTree, matchingIndices, sqDist, hres]
      intro _
      nlinarith

end ClassifierLemmas

section ClassifierClaims

variable {H D F M : Type} [LinearOrderedField F]

/-- C1 (partition completeness): called with output maps that hold no samples,
createFilteredReachability returns two maps whose sample counts add up to the
number of cached samples; the two sample lists together are a rearrangement of
the cached sample list (every sample, metadata included, is appended unmodified,
once), and no sample is in both outputs. -/
theorem createFilteredReachability_partition_complete (sqrt3 : F)
    (self : remove_obstacles_reachability H D F M)
    (type : filterType) (search_tree : OctreePointCloudSearch F)
    (filtered_map colliding_map : WorkSpace H F M)
    (hf : filtered_map.WsSpheres = []) (hc : colliding_map.WsSpheres = []) :
    (createFilteredReachability sqrt3 self type search_tree
        filtered_map colliding_map).1.WsSpheres.length +
      (createFilteredReachability sqrt3 self type search_tree
        filtered_map colliding_map).2.WsSpheres.length
      = self.reachability_map_.WsSpheres.length ∧
    List.Perm
      ((createFilteredReachability sqrt3 self type search_tree
          filtered_map colliding_map).1.WsSpheres ++
        (createFilteredReachability sqrt3 self type search_tree
          filtered_map colliding_map).2.WsSpheres)
      self.reachability_map_.WsSpheres ∧
    ∀ s : WsSphere F M,
      ¬ (s ∈ (createFilteredReachability sqrt3 self type search_tree
              filtered_map colliding_map).1.WsSpheres ∧
          s ∈ (createFilteredReachability sqrt3 self type search_tree
              filtered_map colliding_map).2.WsSpheres) := by
  obtain ⟨h1, h2⟩ := createFilteredReachability_fresh sqrt3 self type search_tree
    filtered_map colliding_map hf hc
  rw [h1, h2]
  have hperm := List.filter_append_perm
    (fun s => decide ((point_idx_vec sqrt3 self type search_tree s).length = 0))
    self.reachability_map_.WsSpheres
  refine ⟨?_, hperm, ?_⟩
  · rw [← List.length_append]
    exact hperm.length_eq
  · rintro s ⟨ha, hb⟩
    have ha2 := (List.mem_filter.mp ha).2
    have hb2 := (List.mem_filter.mp hb).2
    simp only [ha2, Bool.not_true] at hb2
    exact Bool.false_ne_true hb2

/-- Witness of C1 on the example node, the index of the one-point cloud and the
VOXEL policy. -/
theorem createFilteredReachability_partition_complete_witness :
    freshMap.WsSpheres = [] ∧
    (createFilteredReachability sqrt3Double exampleNode filterType.VOXEL
        (buildSearchTree ⟨0, 0, 0⟩ 1 exampleCloud) freshMap freshMap).1.WsSpheres.length +
      (createFilteredReachability sqrt3Double exampleNode filterType.VOXEL
        (buildSearchTree ⟨0, 0, 0⟩ 1 exampleCloud) freshMap freshMap).2.WsSpheres.length
      = exampleNode.reachability_map_.WsSpheres.length :=
  ⟨rfl, (createFilteredReachability_partition_complete sqrt3Double exampleNode filterType.VOXEL
    (buildSearchTree ⟨0, 0, 0⟩ 1 exampleCloud) freshMap freshMap rfl rfl).1⟩

/-- C2 (stable ordering): called with output maps that hold no samples,
createFilteredReachability leaves in filtered_map exactly the cached samples
whose query returned no index, in their input order, and in colliding_map
exactly the remaining cached samples, in their input order; both are sublists
of the cached sample list. -/
theorem createFilteredReachability_stable_partition (sqrt3 : F)
    (self : remove_obstacles_reachability H D F M)
    (type : filterType) (search_tree : OctreePointCloudSearch F)
    (filtered_map colliding_map : WorkSpace H F M)
    (hf : filtered_map.WsSpheres = []) (hc : colliding_map.WsSpheres = []) :
    ((createFilteredReachability sqrt3 self type search_tree
          filtered_map colliding_map).1.WsSpheres,
      (createFilteredReachability sqrt3 self type search_tree
          filtered_map colliding_map).2.WsSpheres)
      = self.reachability_map_.WsSpheres.partition
          (fun s => decide ((point_idx_vec sqrt3 self type search_tree s).length = 0)) ∧
    List.Sublist
      (createFilteredReachability sqrt3 self type search_tree
          filtered_map colliding_map).1.WsSpheres self.reachability_map_.WsSpheres ∧
    List.Sublist
      (createFilteredReachability sqrt3 self type search_tree
          filtered_map colliding_map).2.WsSpheres self.reachability_map_.WsSpheres := by
  obtain ⟨h1, h2⟩ := createFilteredReachability_fresh sqrt3 self type search_tree
    filtered_map colliding_map hf hc
  rw [h1, h2, List.partition_eq_filter_filter]
  refine ⟨?_, List.filter_sublist _, List.filter_sublist _⟩
  congr 1

/-- Witness of C2 on the example node, the index of the one-point cloud and the
INSCRIBED_SPHERE policy. -/
theorem createFilteredReachability_stable_partition_witness :
    freshMap.WsSpheres = [] ∧
    List.Sublist
      (createFilteredReachability sqrt3Double exampleNode filterType.INSCRIBED_SPHERE
        (buildSearchTree ⟨0, 0, 0⟩ 1 exampleCloud) freshMap freshMap).1.WsSpheres
      exampleNode.reachability_map_.WsSpheres :=
  ⟨rfl, (createFilteredReachability_stable_partition sqrt3Double exampleNode
    filterType.INSCRIBED_SPHERE (buildSearchTree ⟨0, 0, 0⟩ 1 exampleCloud)
    freshMap freshMap rfl rfl).2.1⟩

/-- C3 (classification rule per policy): called with output maps that hold no
samples, createFilteredReachability puts a cached sample with point p in
colliding_map if and only if the query of the policy on p returns at least one
index, and in filtered_map if and only if it returns none, where the query is
the voxel search for VOXEL, the radius search with radius r/2 for
INSCRIBED_SPHERE and with radius r*sqrt(3)/2 for CIRCUMSCRIBED_SPHERE, r being
the resolution held in reachability_resolution_. -/
theorem createFilteredReachability_classification_rule (sqrt3 : F)
    (self : remove_obstacles_reachability H D F M)
    (type : filterType) (search_tree : OctreePointCloudSearch F)
    (filtered_map colliding_map : WorkSpace H F M)
    (hf : filtered_map.WsSpheres = []) (hc : colliding_map.WsSpheres = [])
    (s : WsSphere F M) (hs : s ∈ self.reachability_map_.WsSpheres) :
    (s ∈ (createFilteredReachability sqrt3 self type search_tree
            filtered_map colliding_map).2.WsSpheres ↔
        0 < (specQuery sqrt3 search_tree self.reachability_resolution_ type
              ⟨s.point.x, s.point.y, s.point.z⟩).length) ∧
    (s ∈ (createFilteredReachability sqrt3 self type search_tree
            filtered_map colliding_map).1.WsSpheres ↔
        (specQuery sqrt3 search_tree self.reachability_resolution_ type
              ⟨s.point.x, s.point.y, s.point.z⟩).length = 0) := by
  obtain ⟨h1, h2⟩ := createFilteredReachability_fresh sqrt3 self type search_tree
    filtered_map colliding_map hf hc
  rw [h1, h2, ← point_idx_vec_eq_specQuery sqrt3 self type search_tree s]
  constructor
  · rw [List.mem_filter]
    constructor
    · rintro ⟨_, h⟩
      simp only [Bool.not_eq_true', decide_eq_false_iff_not] at h
      exact Nat.pos_of_ne_zero h
    · intro h
      refine ⟨hs, ?_⟩
      simp only [Bool.not_eq_true', decide_eq_false_iff_not]
      exact Nat.pos_iff_ne_zero.mp h
  · rw [List.mem_filter]
    constructor
    · rintro ⟨_, h⟩
      exact of_decide_eq_true h
    · intro h
      exact ⟨hs, decide_eq_true h⟩

/-- Witness of C3: the sample at (0,0,0) of the example node under the
CIRCUMSCRIBED_SPHERE policy. -/
theorem createFilteredReachability_classification_rule_witness :
    freshMap.WsSpheres = [] ∧
    (⟨⟨0, 0, 0⟩, 1⟩ : WsSphere ℚ Nat) ∈ exampleNode.reachability_map_.WsSpheres ∧
    ((⟨⟨0, 0, 0⟩, 1⟩ : WsSphere ℚ Nat) ∈
        (createFilteredReachability sqrt3Double exampleNode filterType.CIRCUMSCRIBED_SPHERE
          (buildSearchTree ⟨0, 0, 0⟩ 1 exampleCloud) freshMap freshMap).2.WsSpheres ↔
      0 < (specQuery sqrt3Double (buildSearchTree ⟨0, 0, 0⟩ 1 exampleCloud)
            exampleNode.reachability_resolution_ filterType.CIRCUMSCRIBED_SPHERE
            ⟨0, 0, 0⟩).length) :=
  ⟨rfl, List.mem_cons_self _ _,
    (createFilteredReachability_classification_rule sqrt3Double exampleNode
      filterType.CIRCUMSCRIBED_SPHERE (buildSearchTree ⟨0, 0, 0⟩ 1 exampleCloud)
      freshMap freshMap rfl rfl ⟨⟨0, 0, 0⟩, 1⟩ (List.mem_cons_self _ _)).1⟩

/-- C4 (empty obstacle set implies all free): when every query of the index
returns no index, as for the index of an empty obstacle point set,
createFilteredReachability called with output maps that hold no samples returns,
under each of the three policies, the full cached sample list in filtered_map
and no sample in colliding_map. -/
theorem createFilteredReachability_empty_index_all_free (sqrt3 : F)
    (self : remove_obstacles_reachability H D F M)
    (type : filterType) (search_tree : OctreePointCloudSearch F)
    (filtered_map colliding_map : WorkSpace H F M)
    (hf : filtered_map.WsSpheres = []) (hc : colliding_map.WsSpheres = [])
    (hvoxel : ∀ p, search_tree.voxelSearch p = [])
    (hradius : ∀ p radius, search_tree.radiusSearch p radius = []) :
    (createFilteredReachability sqrt3 self type search_tree
        filtered_map colliding_map).1.WsSpheres = self.reachability_map_.WsSpheres ∧
    (createFilteredReachability sqrt3 self type search_tree
        filtered_map colliding_map).2.WsSpheres = [] := by
  obtain ⟨h1, h2⟩ := createFilteredReachability_fresh sqrt3 self type search_tree
    filtered_map colliding_map hf hc
  have hq : ∀ s : WsSphere F M, point_idx_vec sqrt3 self type search_tree s = [] := by
    intro s
    cases type
    · exact hvoxel _
    · exact hradius _ _
    · exact hradius _ _
  rw [h1, h2]
  simp [hq]

/-- Witness of C4: the index built from the empty cloud, VOXEL policy. -/
theorem createFilteredReachability_empty_index_all_free_witness :
    freshMap.WsSpheres = [] ∧
    (∀ p, (buildSearchTree (⟨0, 0, 0⟩ : PointXYZ ℚ) 1 []).voxelSearch p = []) ∧
    (∀ p radius, (buildSearchTree (⟨0, 0, 0⟩ : PointXYZ ℚ) 1 []).radiusSearch p radius = []) ∧
    (createFilteredReachability sqrt3Double exampleNode filterType.VOXEL
        (buildSearchTree ⟨0, 0, 0⟩ 1 []) freshMap freshMap).1.WsSpheres
      = exampleNode.reachability_map_.WsSpheres ∧
    (createFilteredReachability sqrt3Double exampleNode filterType.VOXEL
        (buildSearchTree ⟨0, 0, 0⟩ 1 []) freshMap freshMap).2.WsSpheres = [] :=
  ⟨rfl, fun _ => rfl, fun _ _ => rfl,
    createFilteredReachability_empty_index_all_free sqrt3Double exampleNode filterType.VOXEL
      (buildSearchTree ⟨0, 0, 0⟩ 1 []) freshMap freshMap rfl rfl (fun _ => rfl) (fun _ _ => rfl)⟩

/-- C5 (policy monotonicity): for a resolution r ≥ 0 (and sqrt(3) ≥ 1) and the
index of any obstacle point set, the samples that createFilteredReachability
puts in colliding_map under INSCRIBED_SPHERE form a sublist of those it puts
there under CIRCUMSCRIBED_SPHERE, and the free samples under
CIRCUMSCRIBED_SPHERE form a sublist of the free samples under INSCRIBED_SPHERE. -/
theorem createFilteredReachability_policy_monotone [FloorRing F] (sqrt3 : F)
    (self : remove_obstacles_reachability H D F M)
    (origin : PointXYZ F) (resolution : F) (cloud : List (PointXYZ F))
    (filtered_map colliding_map : WorkSpace H F M)
    (hf : filtered_map.WsSpheres = []) (hc : colliding_map.WsSpheres = [])
    (hr : 0 ≤ self.reachability_resolution_) (h3 : 1 ≤ sqrt3) :
    List.Sublist
      (createFilteredReachability sqrt3 self filterType.INSCRIBED_SPHERE
        (buildSearchTree origin resolution cloud) filtered_map colliding_map).2.WsSpheres
      (createFilteredReachability sqrt3 self filterType.CIRCUMSCRIBED_SPHERE
        (buildSearchTree origin resolution cloud) filtered_map colliding_map).2.WsSpheres ∧
    List.Sublist
      (createFilteredReachability sqrt3 self filterType.CIRCUMSCRIBED_SPHERE
        (buildSearchTree origin resolution cloud) filtered_map colliding_map).1.WsSpheres
      (createFilteredReachability sqrt3 self filterType.INSCRIBED_SPHERE
        (buildSearchTree origin resolution cloud) filtered_map colliding_map).1.WsSpheres := by
  obtain ⟨hi1, hi2⟩ := createFilteredReachability_fresh sqrt3 self filterType.INSCRIBED_SPHERE
    (buildSearchTree origin resolution cloud) filtered_map colliding_map hf hc
  obtain ⟨hc1, hc2⟩ := createFilteredReachability_fresh sqrt3 self
    filterType.CIRCUMSCRIBED_SPHERE (buildSearchTree origin resolution cloud)
    filtered_map colliding_map hf hc
  rw [hi1, hi2, hc1, hc2]
  have hrad : self.reachability_resolution_ / 2 ≤ sqrt3 * self.reachability_resolution_ / 2 := by
    have : self.reachability_resolution_ ≤ sqrt3 * self.reachability_resolution_ :=
      le_mul_of_one_le_left hr h3
    linarith
  have key : ∀ s : WsSphere F M,
      point_idx_vec sqrt3 self filterType.CIRCUMSCRIBED_SPHERE
          (buildSearchTree origin resolution cloud) s = [] →
      point_idx_vec sqrt3 self filterType.INSCRIBED_SPHERE
          (buildSearchTree origin resolution cloud) s = [] := by
    intro s h
    exact radiusSearch_mono origin resolution cloud _ _ _ hrad h
  constructor
  · apply List.monotone_filter_right
    intro s hs
    simp only [Bool.not_eq_true', decide_eq_false_iff_not, List.length_eq_zero] at hs ⊢
    exact fun h => hs (key s h)
  · apply List.monotone_filter_right
    intro s hs
    simp only [decide_eq_true_eq, List.length_eq_zero] at hs ⊢
    exact key s hs

/-- Witness of C5 on the example node and the index of the one-point cloud. -/
theorem createFilteredReachability_policy_monotone_witness :
    freshMap.WsSpheres = [] ∧ 0 ≤ exampleNode.reachability_resolution_ ∧ 1 ≤ sqrt3Double ∧
    List.Sublist
      (createFilteredReachability sqrt3Double exampleNode filterType.INSCRIBED_SPHERE
        (buildSearchTree ⟨0, 0, 0⟩ 1 exampleCloud) freshMap freshMap).2.WsSpheres
      (createFilteredReachability sqrt3Double exampleNode filterType.CIRCUMSCRIBED_SPHERE
        (buildSearchTree ⟨0, 0, 0⟩ 1 exampleCloud) freshMap freshMap).2.WsSpheres :=
  ⟨rfl, by decide!, by decide!,
    (createFilteredReachability_policy_monotone sqrt3Double exampleNode ⟨0, 0, 0⟩ 1 exampleCloud
      freshMap freshMap rfl rfl (by decide!) (by decide!)).1⟩

/-- C6 (end-to-end scenario): with resolution 1, the index of the obstacle point
set {(0,0,0)} at that resolution (whatever the alignment of its grid) and the
cached samples [(0,0,0), (5,5,5)], createFilteredReachability returns
FilteredMap = [(5,5,5)] and CollidingMap = [(0,0,0)] under each of VOXEL,
INSCRIBED_SPHERE and CIRCUMSCRIBED_SPHERE, for any value of sqrt(3) between 1
and 2. -/
theorem createFilteredReachability_scenario [FloorRing F] (sqrt3 : F)
    (self : remove_obstacles_reachability H D F M) (origin : PointXYZ F)
    (type : filterType) (m1 m2 : M)
    (filtered_map colliding_map : WorkSpace H F M)
    (hf : filtered_map.WsSpheres = []) (hc : colliding_map.WsSpheres = [])
    (hres : self.reachability_resolution_ = 1)
    (hmap : self.reachability_map_.WsSpheres = [⟨⟨0, 0, 0⟩, m1⟩, ⟨⟨5, 5, 5⟩, m2⟩])
    (h1 : 1 ≤ sqrt3) (h2 : sqrt3 ≤ 2) :
    (createFilteredReachability sqrt3 self type
        (buildSearchTree origin self.reachability_resolution_ [⟨0, 0, 0⟩])
        filtered_map colliding_map).1.WsSpheres = [⟨⟨5, 5, 5⟩, m2⟩] ∧
    (createFilteredReachability sqrt3 self type
        (buildSearchTree origin self.reachability_resolution_ [⟨0, 0, 0⟩])
        filtered_map colliding_map).2.WsSpheres = [⟨⟨0, 0, 0⟩, m1⟩] := by
  obtain ⟨e1, e2⟩ := createFilteredReachability_fresh sqrt3 self type
    (buildSearchTree origin self.reachability_resolution_ [⟨0, 0, 0⟩])
    filtered_map colliding_map hf hc
  obtain ⟨q0, q5⟩ := point_idx_vec_scenario sqrt3 self origin type m1 m2 hres h1 h2
  rw [e1, e2, hmap, hres]
  simp [List.filter_cons, q0, q5]

/-- Witness of C6: the example node with the `double` value of sqrt(3), under the
CIRCUMSCRIBED_SPHERE policy. -/
theorem createFilteredReachability_scenario_witness :
    freshMap.WsSpheres = [] ∧ exampleNode.reachability_resolution_ = 1 ∧
    exampleNode.reachability_map_.WsSpheres = [⟨⟨0, 0, 0⟩, 1⟩, ⟨⟨5, 5, 5⟩, 2⟩] ∧
    1 ≤ sqrt3Double ∧ sqrt3Double ≤ 2 ∧
    (createFilteredReachability sqrt3Double exampleNode filterType.CIRCUMSCRIBED_SPHERE
        (buildSearchTree ⟨0, 0, 0⟩ exampleNode.reachability_resolution_ [⟨0, 0, 0⟩])
        freshMap freshMap).1.WsSpheres = [⟨⟨5, 5, 5⟩, 2⟩] ∧
    (createFilteredReachability sqrt3Double exampleNode filterType.CIRCUMSCRIBED_SPHERE
        (buildSearchTree ⟨0, 0, 0⟩ exampleNode.reachability_resolution_ [⟨0, 0, 0⟩])
        freshMap freshMap).2.WsSpheres = [⟨⟨0, 0, 0⟩, 1⟩] :=
  ⟨rfl, rfl, rfl, by decide!, by decide!,
    createFilteredReachability_scenario sqrt3Double exampleNode ⟨0, 0, 0⟩
      filterType.CIRCUMSCRIBED_SPHERE 1 2 freshMap freshMap rfl rfl rfl rfl
      (by decide!) (by decide!)⟩

end ClassifierClaims

/-! ## Theorems: obstacle-volume decoder -/

section DecoderLemmas

variable {D F : Type} [LinearOrderedField D]

/-- No vector is below itself. -/
theorem vecLt_irrefl (a : List D) : vecLt a a = false := by
  induction a with
  | nil => rfl
  | cons x xs ih => simp [vecLt, ih]

/-- The lexicographic comparison is transitive. -/
theorem vecLt_trans (a b c : List D) (hab : vecLt a b = true) (hbc : vecLt b c = true) :
    vecLt a c = true := by
  induction a generalizing b c with
  | nil =>
    cases b with
    | nil => simp [vecLt] at hab
    | cons y ys =>
      cases c with
      | nil => simp [vecLt] at hbc
      | cons z zs => simp [vecLt]
  | cons x xs ih =>
    cases b with
    | nil => simp [vecLt] at hab
    | cons y ys =>
      cases c with
      | nil => simp [vecLt] at hbc
      | cons z zs =>
        simp only [vecLt] at hab hbc ⊢
        rcases lt_trichotomy x y with hxy | hxy | hxy
        · rcases lt_trichotomy y z with hyz | hyz | hyz
          · simp [lt_trans hxy hyz]
          · subst hyz; simp [hxy]
          · simp [hyz, not_lt_of_gt hyz] at hbc
        · subst hxy
          rcases lt_trichotomy x z with hyz | hyz | hyz
          · simp [hyz]
          · subst hyz
            simp only [lt_self_iff_false, if_false] at hab hbc ⊢
            exact ih ys zs hab hbc
          · simp [hyz, not_lt_of_gt hyz] at hbc
        · simp [hxy, not_lt_of_gt hxy] at hab

/-- Two vectors neither of which is below the other are equal. -/
theorem vecLt_total (a b : List D) (hab : vecLt a b = false) (hba : vecLt b a = false) :
    a = b := by
  induction a generalizing b with
  | nil =>
    cases b with
    | nil => rfl
    | cons y ys => simp [vecLt] at hab
  | cons x xs ih =>
    cases b with
    | nil => simp [vecLt] at hba
    | cons y ys =>
      simp only [vecLt] at hab hba
      rcases lt_trichotomy x y with hxy | hxy | hxy
      · simp [hxy] at hab
      · subst hxy
        simp only [lt_self_iff_false, if_false] at hab hba
        rw [ih ys hab hba]
      · simp [hxy] at hba

/-- The elements of a set after an insertion: the inserted vector and the old elements. -/
theorem mem_setInsert (v x : List D) (l : List (List D)) :
    x ∈ setInsert v l ↔ x = v ∨ x ∈ l := by
  induction l with
  | nil => simp [setInsert]
  | cons w ws ih =>
    cases h1 : vecLt v w with
    | true => simp [setInsert, h1]
    | false =>
      cases h2 : vecLt w v with
      | true =>
        simp only [setInsert, h1, h2, if_true, Bool.false_eq_true, if_false, List.mem_cons, ih]
        tauto
      | false =>
        have e : v = w := vecLt_total v w h1 h2
        subst e
        simp [setInsert, h1]

/-- Insertion keeps the set strictly increasing. -/
theorem setInsert_sorted (v : List D) (l : List (List D))
    (hl : l.Pairwise (fun a b => vecLt a b = true)) :
    (setInsert v l).Pairwise (fun a b => vecLt a b = true) := by
  induction l with
  | nil => simp [setInsert]
  | cons w ws ih =>
    rw [List.pairwise_cons] at hl
    obtain ⟨hw, hws⟩ := hl
    cases h1 : vecLt v w with
    | true =>
      simp only [setInsert, h1, if_true]
      refine List.Pairwise.cons ?_ (List.Pairwise.cons hw hws)
      intro x hx
      rcases List.mem_cons.mp hx with rfl | hx
      · exact h1
      · exact vecLt_trans v w x h1 (hw x hx)
    | false =>
      cases h2 : vecLt w v with
      | true =>
        simp only [setInsert, h1, h2, if_true, Bool.false_eq_true, if_false]
        refine List.Pairwise.cons ?_ (ih hws)
        intro x hx
        rcases (mem_setInsert v x ws).mp hx with rfl | hx
        · exact h2
        · exact hw x hx
      | false =>
        simp only [setInsert, h1, h2, Bool.false_eq_true, if_false]
        exact List.Pairwise.cons hw hws

/-- A property kept by every step of a loop holds when the loop ends. -/
theorem foldl_preserves {α β : Type} (P : α → Prop) (f : α → β → α)
    (h : ∀ s a, P s → P (f s a)) (l : List β) (init : α) (h0 : P init) :
    P (l.foldl f init) := by
  induction l generalizing init with
  | nil => exact h0
  | cons a rest ih => exact ih (f init a) (h init a h0)

/-- A property of the set kept by every insertion of a three-entry vector is kept by
the loop body of a leaf. -/
theorem insertLeaf_preserves (P : List (List D) → Prop)
    (h : ∀ (v : List D) (s : List (List D)), v.length = 3 → P s → P (setInsert v s))
    (s : List (List D)) (it : OcTreeLeaf D) (hs : P s) : P (insertLeaf s it) := by
  unfold insertLeaf
  split
  · refine foldl_preserves P _ ?_ _ _ hs
    intro s1 dx h1
    refine foldl_preserves P _ ?_ _ _ h1
    intro s2 dy h2
    refine foldl_preserves P _ ?_ _ _ h2
    intro s3 dz h3
    exact h _ _ rfl (h _ _ rfl h3)
  · exact hs

/-- A property of the set kept by every insertion of a three-entry vector holds of
`points_set`. -/
theorem points_set_preserves (P : List (List D) → Prop)
    (h : ∀ (v : List D) (s : List (List D)), v.length = 3 → P s → P (setInsert v s))
    (h0 : P []) (tree : OcTree D) : P (points_set tree) :=
  foldl_preserves P insertLeaf (fun s it hs => insertLeaf_preserves P h s it hs) _ _ h0

/-- The set of a volume is strictly increasing. -/
theorem points_set_sorted (tree : OcTree D) :
    (points_set tree).Pairwise (fun a b => vecLt a b = true) :=
  points_set_preserves _ (fun v s _ hs => setInsert_sorted v s hs) List.Pairwise.nil tree

/-- The set of a volume holds no vector twice: the deduplication on `double` triples. -/
theorem points_set_nodup (tree : OcTree D) : (points_set tree).Nodup := by
  refine (points_set_sorted tree).imp ?_
  intro a b hab e
  subst e
  rw [vecLt_irrefl] at hab
  exact Bool.false_ne_true hab

/-- Every vector of the set has three entries. -/
theorem points_set_length_three (tree : OcTree D) :
    ∀ v ∈ points_set tree, v.length = 3 := by
  refine points_set_preserves (fun s => ∀ v ∈ s, v.length = 3) ?_ ?_ tree
  · intro v s hv hs x hx
    rcases (mem_setInsert v x s).mp hx with rfl | hx
    · exact hv
    · exact hs x hx
  · intro v hv
    cases hv

/-- The cloud after the call holds the converted elements of the set, in the order of
the set, whatever the cloud held before. -/
theorem createObstaclesPointCloud_eq_map (toFloat : D → F) (tree : OcTree D)
    (obstacle_vertices : List (PointXYZ F)) :
    createObstaclesPointCloud toFloat tree obstacle_vertices
      = (points_set tree).map (cloud_point toFloat) := by
  have key : ∀ (l : List (List D)) (init : List (PointXYZ F)),
      l.foldl (fun cloud it => cloud ++ [cloud_point toFloat it]) init
        = init ++ l.map (cloud_point toFloat) := by
    intro l
    induction l with
    | nil => intro init; simp
    | cons a rest ih => intro init; simp [ih]
  unfold createObstaclesPointCloud
  rw [key]
  cases obstacle_vertices <;> simp

/-- When the conversion to `float` is injective (as in exact arithmetic), the cloud
holds no point twice. -/
theorem createObstaclesPointCloud_nodup_of_injective (toFloat : D → F)
    (hinj : Function.Injective toFloat) (tree : OcTree D)
    (obstacle_vertices : List (PointXYZ F)) :
    (createObstaclesPointCloud toFloat tree obstacle_vertices).Nodup := by
  rw [createObstaclesPointCloud_eq_map]
  refine List.Nodup.map_on ?_ (points_set_nodup tree)
  intro v hv w hw e
  have lv := points_set_length_three tree v hv
  have lw := points_set_length_three tree w hw
  match v, w, lv, lw with
  | [a, b, c], [a2, b2, c2], _, _ =>
    simp only [cloud_point, List.getD_cons_zero, List.getD_cons_succ, PointXYZ.mk.injEq] at e
    obtain ⟨e1, e2, e3⟩ := e
    rw [hinj e1, hinj e2, hinj e3]

end DecoderLemmas

/-- C7 (decoder point emission), evaluation of the code: for the volume with the
single occupied leaf of center (0,0,0) and edge length 2, createObstaclesPointCloud
returns 27 points, not 9, and among them the face center (1,0,0), which is
neither the center nor a corner of the leaf. -/
theorem createObstaclesPointCloud_single_leaf :
    (createObstaclesPointCloud toFloat32 singleLeafTree []).length = 27 ∧
    (⟨1, 0, 0⟩ : PointXYZ ℚ) ∈ createObstaclesPointCloud toFloat32 singleLeafTree [] ∧
    (⟨1, 1, 0⟩ : PointXYZ ℚ) ∈ createObstaclesPointCloud toFloat32 singleLeafTree [] := by
  decide!

/-- C8 (decoder deduplication), evaluation of the code: for two occupied
neighbouring leaves of a volume of resolution 0.1, the set of `double` triples
holds 54 distinct points, and the cloud of `float` points made from it has two
entries with equal coordinates: the corners that the leaves share, at x = 0.1
and x = 0.10000000000000002 as `double`, are the same `float`. -/
theorem createObstaclesPointCloud_adjacent_leaves_duplicates :
    (points_set adjacentLeavesTree).Nodup ∧
    (points_set adjacentLeavesTree).length = 54 ∧
    [double_0_05 + 1 * double_0_1 / 2, double_0_05, double_0_05] ∈ points_set adjacentLeavesTree ∧
    [double_0_15 + (-1) * double_0_1 / 2, double_0_05, double_0_05]
      ∈ points_set adjacentLeavesTree ∧
    double_0_05 + 1 * double_0_1 / 2 ≠ double_0_15 + (-1) * double_0_1 / 2 ∧
    toFloat32 (double_0_05 + 1 * double_0_1 / 2) = toFloat32 (double_0_15 + (-1) * double_0_1 / 2) ∧
    ¬ (createObstaclesPointCloud toFloat32 adjacentLeavesTree []).Nodup := by
  decide!

/-! ## Theorems: program entry -/

/-- C9 (invalid selector), what the code does: for every argument list whose
second entry, lowercased, is none of "voxel", "circumscribe" and "inscribe",
main calls `ros::shutdown` and then goes on to `ros::init`, the spinner, the
construction of the node and `rm.spin(filter_type)` with `filter_type` never
assigned. -/
theorem main_invalid_selector_enters_spin (prog arg : String) (more : List String)
    (hv : tolower arg ≠ "voxel") (hc : tolower arg ≠ "circumscribe")
    (hi : tolower arg ≠ "inscribe") :
    main (prog :: arg :: more) =
      some [MainCall.ros_shutdown, MainCall.ros_init, MainCall.spinner_start,
        MainCall.construct_rm, MainCall.spin none] := by
  simp [main, selectFilterType, hv, hc, hi]

/-- Witness of C9: the selector "sphere". -/
theorem main_invalid_selector_enters_spin_witness :
    tolower "sphere" ≠ "voxel" ∧ tolower "sphere" ≠ "circumscribe" ∧
    tolower "sphere" ≠ "inscribe" ∧
    main ["remove_reachability", "sphere"] =
      some [MainCall.ros_shutdown, MainCall.ros_init, MainCall.spinner_start,
        MainCall.construct_rm, MainCall.spin none] :=
  ⟨by decide!, by decide!, by decide!,
    main_invalid_selector_enters_spin "remove_reachability" "sphere" []
      (by decide!) (by decide!) (by decide!)⟩

/-- C10 (default policy): when no selector argument is given (argc = 1), main
makes no call of `ros::shutdown` and calls `rm.spin` with the filter type
CIRCUMSCRIBED_SPHERE. -/
theorem main_default_policy (argv : List String) (hargc : argv.length = 1) :
    main argv =
      some [MainCall.ros_init, MainCall.spinner_start, MainCall.construct_rm,
        MainCall.spin (some filterType.CIRCUMSCRIBED_SPHERE)] := by
  simp [main, selectFilterType, hargc]

/-- Witness of C10: the program name alone. -/
theorem main_default_policy_witness :
    ["remove_reachability"].length = 1 ∧
    main ["remove_reachability"] =
      some [MainCall.ros_init, MainCall.spinner_start, MainCall.construct_rm,
        MainCall.spin (some filterType.CIRCUMSCRIBED_SPHERE)] :=
  ⟨rfl, main_default_policy ["remove_reachability"] rfl⟩

/-! ## Theorems: orchestration loop -/

section OrchestrationLemmas

variable {O H D F M : Type}

/-- A planning-scene message without octomap data changes nothing but the flag
`scene_rcvd_`, which it clears. -/
theorem readPlanningScene_of_empty (msgToMap : Octomap O → Option (OcTree D))
    (self : remove_obstacles_reachability H D F M) (scene_msg : PlanningScene O)
    (hdata : scene_msg.world_octomap_octomap.data = []) :
    readPlanningScene msgToMap self scene_msg = { self with scene_rcvd_ := false } := by
  simp [readPlanningScene, hdata]

/-- Deliveries among which no planning-scene message carries octomap data leave
`scene_rcvd_` false. -/
theorem foldl_deliver_scene_rcvd (msgToMap : Octomap O → Option (OcTree D))
    (deliveries : List (Delivery O H F M)) (self : remove_obstacles_reachability H D F M)
    (hscene : self.scene_rcvd_ = false)
    (hdata : ∀ d ∈ deliveries, ∀ scene_msg, d = Delivery.planning_scene scene_msg →
      scene_msg.world_octomap_octomap.data = []) :
    (deliveries.foldl (deliver msgToMap) self).scene_rcvd_ = false := by
  induction deliveries generalizing self with
  | nil => exact hscene
  | cons d rest ih =>
    rw [List.foldl_cons]
    apply ih
    · cases d with
      | planning_scene scene_msg =>
        have h := hdata _ (List.mem_cons_self _ _) scene_msg rfl
        simp [deliver, readPlanningScene, h]
      | reachability_map msg => simpa [deliver, readMap] using hscene
    · intro d2 hd2
      exact hdata d2 (List.mem_cons_of_mem _ hd2)

variable [LinearOrderedField D] [LinearOrderedField F] [Inhabited H]

/-- A cycle entered with `scene_rcvd_` false and an empty cloud keeps the node and
the empty cloud, does not decode and publishes nothing. -/
theorem spinCycle_of_no_scene (sqrt3 : F) (toFloat : D → F)
    (buildIndex : F → List (PointXYZ F) → OctreePointCloudSearch F)
    (filter_type : filterType) (self : remove_obstacles_reachability H D F M)
    (hscene : self.scene_rcvd_ = false) :
    spinCycle sqrt3 toFloat buildIndex filter_type ⟨self, []⟩ = some ⟨⟨self, []⟩, false, []⟩ := by
  simp [spinCycle, decodeStep, publishStep, hscene]

/-- The loop entered with `scene_rcvd_` false and an empty cloud publishes nothing
as long as no planning-scene message with octomap data is delivered. -/
theorem spinLoop_of_no_scene (sqrt3 : F) (toFloat : D → F)
    (buildIndex : F → List (PointXYZ F) → OctreePointCloudSearch F)
    (msgToMap : Octomap O → Option (OcTree D)) (filter_type : filterType)
    (schedule : List (List (Delivery O H F M)))
    (self : remove_obstacles_reachability H D F M)
    (hscene : self.scene_rcvd_ = false)
    (hdata : ∀ deliveries ∈ schedule, ∀ d ∈ deliveries, ∀ scene_msg,
      d = Delivery.planning_scene scene_msg → scene_msg.world_octomap_octomap.data = []) :
    spinLoop sqrt3 toFloat buildIndex msgToMap filter_type ⟨self, []⟩ schedule
      = some (List.replicate schedule.length []) := by
  induction schedule generalizing self with
  | nil => rfl
  | cons deliveries rest ih =>
    have h1 := foldl_deliver_scene_rcvd msgToMap deliveries self hscene
      (hdata deliveries (List.mem_cons_self _ _))
    have h2 := ih (deliveries.foldl (deliver msgToMap) self) h1
      (fun ds hds => hdata ds (List.mem_cons_of_mem _ hds))
    simp only [spinLoop, spinCycle_of_no_scene sqrt3 toFloat buildIndex filter_type _ h1, h2,
      List.length_cons, List.replicate_succ]

end OrchestrationLemmas

section ClassifierFrame

variable {H D F M : Type} [LinearOrderedField F]

/-- C11 (header and resolution are copied): after createFilteredReachability,
whatever the index, the policy and the maps passed in, both filtered_map and
colliding_map have the header and the resolution of the cached map. -/
theorem createFilteredReachability_header_resolution (sqrt3 : F)
    (self : remove_obstacles_reachability H D F M)
    (type : filterType) (search_tree : OctreePointCloudSearch F)
    (filtered_map colliding_map : WorkSpace H F M) :
    (createFilteredReachability sqrt3 self type search_tree filtered_map colliding_map).1.header
      = self.reachability_map_.header ∧
    (createFilteredReachability sqrt3 self type search_tree filtered_map colliding_map).1.resolution
      = self.reachability_map_.resolution ∧
    (createFilteredReachability sqrt3 self type search_tree filtered_map colliding_map).2.header
      = self.reachability_map_.header ∧
    (createFilteredReachability sqrt3 self type search_tree filtered_map colliding_map).2.resolution
      = self.reachability_map_.resolution := by
  simp [createFilteredReachability, foldl_classifyStep]

end ClassifierFrame

section OrchestrationClaims

variable {O H D F M : Type} [LinearOrderedField D] [LinearOrderedField F] [Inhabited H]

/-- C12, counterexample: the example node has cached its map (two samples) and has
just received a volume without occupied leaf; the cycle runs the decoder, which
gives the empty cloud, and publishes nothing. -/
theorem spinCycle_free_volume_publishes_nothing :
    (spinCycle sqrt3Double toFloat32 (buildSearchTree ⟨0, 0, 0⟩)
        filterType.CIRCUMSCRIBED_SPHERE ⟨nodeWithFreeVolume, []⟩).map
      (fun cycle => (cycle.decoded, cycle.state.obstacles_cloud, cycle.published))
      = some (true, [], []) ∧
    nodeWithFreeVolume.map_rcvd_ = true ∧
    nodeWithFreeVolume.reachability_map_.WsSpheres.length = 2 := by
  decide!

/-- C12, amended: in a cycle of spin where `map_rcvd_` is true, when the cloud
after the decoding branch is not empty the cycle builds the index of that cloud
at the cached resolution, runs the classifier on fresh maps and publishes the
colliding map, then the filtered map; when that cloud is empty (as after
decoding a volume without occupied leaf) the cycle publishes nothing. -/
theorem spinCycle_publishes_when_cloud_nonempty (sqrt3 : F) (toFloat : D → F)
    (buildIndex : F → List (PointXYZ F) → OctreePointCloudSearch F)
    (filter_type : filterType) (st : SpinState H D F M)
    (obstacles_cloud : List (PointXYZ F)) (decoded : Bool)
    (hmap : st.self.map_rcvd_ = true)
    (hdecode : decodeStep toFloat st = some (obstacles_cloud, decoded)) :
    (obstacles_cloud ≠ [] →
      spinCycle sqrt3 toFloat buildIndex filter_type st =
        some ⟨⟨st.self, obstacles_cloud⟩, decoded,
          [Publication.colliding_reachability
            (createFilteredReachability sqrt3 st.self filter_type
              (buildIndex st.self.reachability_resolution_ obstacles_cloud)
              ⟨default, [], 0⟩ ⟨default, [], 0⟩).2,
           Publication.filtered_reachability
            (createFilteredReachability sqrt3 st.self filter_type
              (buildIndex st.self.reachability_resolution_ obstacles_cloud)
              ⟨default, [], 0⟩ ⟨default, [], 0⟩).1]⟩) ∧
    (obstacles_cloud = [] →
      spinCycle sqrt3 toFloat buildIndex filter_type st =
        some ⟨⟨st.self, obstacles_cloud⟩, decoded, []⟩) := by
  constructor
  · intro hne
    simp [spinCycle, hdecode, publishStep, hmap, hne]
  · intro he
    simp [spinCycle, hdecode, publishStep, he]

/-- Witness of amended C12: the example node when the volume with one occupied
leaf has just arrived. -/
theorem spinCycle_publishes_when_cloud_nonempty_witness :
    nodeWithVolume.map_rcvd_ = true ∧
    decodeStep toFloat32 ⟨nodeWithVolume, []⟩
      = some (createObstaclesPointCloud toFloat32 singleLeafTree [], true) ∧
    createObstaclesPointCloud toFloat32 singleLeafTree [] ≠ [] ∧
    (spinCycle sqrt3Double toFloat32 (buildSearchTree ⟨0, 0, 0⟩)
        filterType.VOXEL ⟨nodeWithVolume, []⟩).map (fun cycle => cycle.published.length)
      = some 2 := by
  have hne : createObstaclesPointCloud toFloat32 singleLeafTree [] ≠ [] := by decide!
  refine ⟨rfl, rfl, hne, ?_⟩
  rw [(spinCycle_publishes_when_cloud_nonempty sqrt3Double toFloat32 (buildSearchTree ⟨0, 0, 0⟩)
    filterType.VOXEL ⟨nodeWithVolume, []⟩ _ true rfl rfl).1 hne]
  rfl

/-- C13 (no output before the first obstacle volume): when spin is entered with
`scene_rcvd_` false, as the constructor leaves it, then as long as no
planning-scene message with octomap data is delivered (so that `scene_rcvd_`
never becomes true) every cycle runs and none publishes anything, whatever
reachability maps are delivered. -/
theorem spin_no_output_before_first_volume (sqrt3 : F) (toFloat : D → F)
    (buildIndex : F → List (PointXYZ F) → OctreePointCloudSearch F)
    (msgToMap : Octomap O → Option (OcTree D)) (filter_type : filterType)
    (self : remove_obstacles_reachability H D F M)
    (schedule : List (List (Delivery O H F M)))
    (hscene : self.scene_rcvd_ = false)
    (hdata : ∀ deliveries ∈ schedule, ∀ d ∈ deliveries, ∀ scene_msg,
      d = Delivery.planning_scene scene_msg → scene_msg.world_octomap_octomap.data = []) :
    spin sqrt3 toFloat buildIndex msgToMap filter_type self schedule
      = some (List.replicate schedule.length []) :=
  spinLoop_of_no_scene sqrt3 toFloat buildIndex msgToMap filter_type schedule self hscene hdata

/-- Witness of C13: three cycles from the constructed node, the reachability map
arriving before the second and a planning-scene message without octomap data
before the third. -/
theorem spin_no_output_before_first_volume_witness :
    constructedNode.scene_rcvd_ = false ∧
    (∀ deliveries ∈ [[], [Delivery.reachability_map exampleNode.reachability_map_],
        [Delivery.planning_scene sceneWithoutData]],
      ∀ d ∈ deliveries, ∀ scene_msg,
        d = Delivery.planning_scene scene_msg → scene_msg.world_octomap_octomap.data = []) ∧
    spin sqrt3Double toFloat32 (buildSearchTree ⟨0, 0, 0⟩) exampleMsgToMap
        filterType.CIRCUMSCRIBED_SPHERE constructedNode
        [[], [Delivery.reachability_map exampleNode.reachability_map_],
          [Delivery.planning_scene sceneWithoutData]]
      = some [[], [], []] := by
  have hdata : ∀ deliveries ∈ [[], [Delivery.reachability_map exampleNode.reachability_map_],
        [Delivery.planning_scene sceneWithoutData]],
      ∀ d ∈ deliveries, ∀ scene_msg,
        d = Delivery.planning_scene scene_msg → scene_msg.world_octomap_octomap.data = [] := by
    intro deliveries hds d hd scene_msg he
    simp only [List.mem_cons, List.mem_singleton, List.not_mem_nil, or_false] at hds
    rcases hds with rfl | rfl | rfl
    · cases hd
    · simp only [List.mem_singleton] at hd
      subst hd
      cases he
    · simp only [List.mem_singleton] at hd
      subst hd
      cases he
      rfl
  exact ⟨rfl, hdata,
    spin_no_output_before_first_volume sqrt3Double toFloat32 (buildSearchTree ⟨0, 0, 0⟩)
      exampleMsgToMap filterType.CIRCUMSCRIBED_SPHERE constructedNode _ rfl hdata⟩

/-- C15 (both maps or neither): a cycle of spin publishes either nothing, or the
colliding map followed by the filtered map; never one of them alone. -/
theorem spinCycle_publishes_both_or_neither (sqrt3 : F) (toFloat : D → F)
    (buildIndex : F → List (PointXYZ F) → OctreePointCloudSearch F)
    (filter_type : filterType) (st : SpinState H D F M) (cycle : CycleResult H D F M)
    (hcycle : spinCycle sqrt3 toFloat buildIndex filter_type st = some cycle) :
    cycle.published = [] ∨
    ∃ colliding_map filtered_map : WorkSpace H F M,
      cycle.published = [Publication.colliding_reachability colliding_map,
        Publication.filtered_reachability filtered_map] := by
  unfold spinCycle at hcycle
  cases hd : decodeStep toFloat st with
  | none => simp [hd] at hcycle
  | some r =>
    obtain ⟨obstacles_cloud, decoded⟩ := r
    simp only [hd, Option.some.injEq] at hcycle
    subst hcycle
    by_cases hg : (st.self.map_rcvd_ && obstacles_cloud.length != 0) = true
    · right
      refine ⟨(createFilteredReachability sqrt3 st.self filter_type
          (buildIndex st.self.reachability_resolution_ obstacles_cloud)
          ⟨default, [], 0⟩ ⟨default, [], 0⟩).2,
        (createFilteredReachability sqrt3 st.self filter_type
          (buildIndex st.self.reachability_resolution_ obstacles_cloud)
          ⟨default, [], 0⟩ ⟨default, [], 0⟩).1, ?_⟩
      simp only [publishStep, hg, if_true]
    · left
      simp only [publishStep, hg, if_false, Bool.false_eq_true]

/-- Witness of C15, on a cycle that publishes both maps and on one that publishes
neither: the cycle of the example node right after the volume with one occupied
leaf arrived publishes the colliding map [(0,0,0)] and then the filtered map
[(5,5,5)]; the first cycle of the constructed node publishes nothing. -/
theorem spinCycle_publishes_both_or_neither_witness :
    spinCycle sqrt3Double toFloat32 (buildSearchTree ⟨0, 0, 0⟩) filterType.VOXEL
        ⟨nodeWithVolume, []⟩
      = some ⟨⟨nodeWithVolume, createObstaclesPointCloud toFloat32 singleLeafTree []⟩, true,
          publishStep sqrt3Double (buildSearchTree ⟨0, 0, 0⟩) filterType.VOXEL nodeWithVolume
            (createObstaclesPointCloud toFloat32 singleLeafTree [])⟩ ∧
    publishStep sqrt3Double (buildSearchTree ⟨0, 0, 0⟩) filterType.VOXEL nodeWithVolume
        (createObstaclesPointCloud toFloat32 singleLeafTree [])
      = [Publication.colliding_reachability ⟨"base_link", [⟨⟨0, 0, 0⟩, 1⟩], 1⟩,
          Publication.filtered_reachability ⟨"base_link", [⟨⟨5, 5, 5⟩, 2⟩], 1⟩] ∧
    (publishStep sqrt3Double (buildSearchTree ⟨0, 0, 0⟩) filterType.VOXEL nodeWithVolume
        (createObstaclesPointCloud toFloat32 singleLeafTree []) = [] ∨
      ∃ colliding_map filtered_map : WorkSpace String ℚ Nat,
        publishStep sqrt3Double (buildSearchTree ⟨0, 0, 0⟩) filterType.VOXEL nodeWithVolume
            (createObstaclesPointCloud toFloat32 singleLeafTree []) =
          [Publication.colliding_reachability colliding_map,
            Publication.filtered_reachability filtered_map]) ∧
    spinCycle sqrt3Double toFloat32 (buildSearchTree ⟨0, 0, 0⟩) filterType.VOXEL
        ⟨constructedNode, []⟩ = some ⟨⟨constructedNode, []⟩, false, []⟩ ∧
    ((⟨⟨constructedNode, []⟩, false, []⟩ : CycleResult String ℚ ℚ Nat).published = [] ∨
      ∃ colliding_map filtered_map : WorkSpace String ℚ Nat,
        (⟨⟨constructedNode, []⟩, false, []⟩ : CycleResult String ℚ ℚ Nat).published =
          [Publication.colliding_reachability colliding_map,
            Publication.filtered_reachability filtered_map]) :=
  ⟨rfl, by decide!,
    spinCycle_publishes_both_or_neither sqrt3Double toFloat32 (buildSearchTree ⟨0, 0, 0⟩)
      filterType.VOXEL ⟨nodeWithVolume, []⟩
      ⟨⟨nodeWithVolume, createObstaclesPointCloud toFloat32 singleLeafTree []⟩, true,
        publishStep sqrt3Double (buildSearchTree ⟨0, 0, 0⟩) filterType.VOXEL nodeWithVolume
          (createObstaclesPointCloud toFloat32 singleLeafTree [])⟩ rfl,
    rfl,
    spinCycle_publishes_both_or_neither sqrt3Double toFloat32 (buildSearchTree ⟨0, 0, 0⟩)
      filterType.VOXEL ⟨constructedNode, []⟩ ⟨⟨constructedNode, []⟩, false, []⟩ rfl⟩

/-- C16 (stateless re-derivation every cycle): whatever `scene_rcvd_` is, a cycle
of spin with the map cached that ends with a non-empty obstacle cloud has
published the classification of the cached map against the index built from
that cloud in this cycle, and the next cycle, entered with unchanged inputs,
runs, ends with the same cloud and publishes identical maps. -/
theorem spinCycle_rederives_every_cycle (sqrt3 : F) (toFloat : D → F)
    (buildIndex : F → List (PointXYZ F) → OctreePointCloudSearch F)
    (filter_type : filterType) (st : SpinState H D F M) (cycle : CycleResult H D F M)
    (hcycle : spinCycle sqrt3 toFloat buildIndex filter_type st = some cycle)
    (hmap : st.self.map_rcvd_ = true) (hcloud : cycle.state.obstacles_cloud ≠ []) :
    cycle.published =
      [Publication.colliding_reachability
        (createFilteredReachability sqrt3 st.self filter_type
          (buildIndex st.self.reachability_resolution_ cycle.state.obstacles_cloud)
          ⟨default, [], 0⟩ ⟨default, [], 0⟩).2,
       Publication.filtered_reachability
        (createFilteredReachability sqrt3 st.self filter_type
          (buildIndex st.self.reachability_resolution_ cycle.state.obstacles_cloud)
          ⟨default, [], 0⟩ ⟨default, [], 0⟩).1] ∧
    ∃ next : CycleResult H D F M,
      spinCycle sqrt3 toFloat buildIndex filter_type cycle.state = some next ∧
      next.published = cycle.published ∧
      next.state.obstacles_cloud = cycle.state.obstacles_cloud := by
  unfold spinCycle at hcycle
  cases hd : decodeStep toFloat st with
  | none => simp [hd] at hcycle
  | some r =>
    obtain ⟨obstacles_cloud, decoded⟩ := r
    simp only [hd, Option.some.injEq] at hcycle
    subst hcycle
    simp only at hcloud
    have hlen : (obstacles_cloud.length != 0) = true := by
      cases obstacles_cloud with
      | nil => exact absurd rfl hcloud
      | cons p ps => rfl
    have hnext : decodeStep toFloat (⟨st.self, obstacles_cloud⟩ : SpinState H D F M)
        = some (obstacles_cloud, decoded) := by
      unfold decodeStep at hd ⊢
      by_cases hs : st.self.scene_rcvd_ = true
      · cases ht : st.self.collision_octree_ with
        | none => simp [hs, ht] at hd
        | some tree =>
          simp only [hs, ht, if_true, Option.some.injEq, Prod.mk.injEq] at hd ⊢
          obtain ⟨h1, h2⟩ := hd
          refine ⟨?_, h2⟩
          rw [← h1, createObstaclesPointCloud_eq_map, createObstaclesPointCloud_eq_map]
      · simp only [hs, if_false, Option.some.injEq, Prod.mk.injEq, Bool.false_eq_true] at hd ⊢
        exact ⟨trivial, hd.2⟩
    refine ⟨?_, ⟨⟨st.self, obstacles_cloud⟩, decoded,
      publishStep sqrt3 buildIndex filter_type st.self obstacles_cloud⟩, ?_, rfl, rfl⟩
    · simp only [publishStep, hmap, hlen, Bool.and_self, if_true]
    · simp only [spinCycle, hnext]

/-- Witness of C16: the example node holding the volume with one occupied leaf,
with `scene_rcvd_` set. -/
theorem spinCycle_rederives_every_cycle_witness :
    spinCycle sqrt3Double toFloat32 (buildSearchTree ⟨0, 0, 0⟩) filterType.VOXEL
        ⟨nodeWithVolume, []⟩
      = some ⟨⟨nodeWithVolume, createObstaclesPointCloud toFloat32 singleLeafTree []⟩, true,
          publishStep sqrt3Double (buildSearchTree ⟨0, 0, 0⟩) filterType.VOXEL nodeWithVolume
            (createObstaclesPointCloud toFloat32 singleLeafTree [])⟩ ∧
    nodeWithVolume.map_rcvd_ = true ∧
    createObstaclesPointCloud toFloat32 singleLeafTree [] ≠ [] ∧
    ∃ next : CycleResult String ℚ ℚ Nat,
      spinCycle sqrt3Double toFloat32 (buildSearchTree ⟨0, 0, 0⟩) filterType.VOXEL
          ⟨nodeWithVolume, createObstaclesPointCloud toFloat32 singleLeafTree []⟩ = some next ∧
      next.published = publishStep sqrt3Double (buildSearchTree ⟨0, 0, 0⟩) filterType.VOXEL
          nodeWithVolume (createObstaclesPointCloud toFloat32 singleLeafTree []) ∧
      next.state.obstacles_cloud = createObstaclesPointCloud toFloat32 singleLeafTree [] := by
  have hne : createObstaclesPointCloud toFloat32 singleLeafTree [] ≠ [] := by decide!
  exact ⟨rfl, rfl, hne,
    (spinCycle_rederives_every_cycle sqrt3Double toFloat32 (buildSearchTree ⟨0, 0, 0⟩)
      filterType.VOXEL ⟨nodeWithVolume, []⟩
      ⟨⟨nodeWithVolume, createObstaclesPointCloud toFloat32 singleLeafTree []⟩, true,
        publishStep sqrt3Double (buildSearchTree ⟨0, 0, 0⟩) filterType.VOXEL nodeWithVolume
          (createObstaclesPointCloud toFloat32 singleLeafTree [])⟩ rfl rfl hne).2⟩

/-- C17 (empty tree data is a no-update): a planning-scene message whose octomap
data is empty leaves every member of the node as it was, the held volume
included, except `scene_rcvd_`, which becomes false; the cycle of spin that
follows does not run the decoder, keeps the obstacle cloud it was entered with,
and publishes exactly what the node before the message would publish from that
cloud: when the map is cached and the cloud is not empty, the classification
against the index of that retained cloud. -/
theorem readPlanningScene_empty_data_no_update (sqrt3 : F) (toFloat : D → F)
    (buildIndex : F → List (PointXYZ F) → OctreePointCloudSearch F)
    (msgToMap : Octomap O → Option (OcTree D))
    (filter_type : filterType) (self : remove_obstacles_reachability H D F M)
    (scene_msg : PlanningScene O) (obstacles_cloud : List (PointXYZ F))
    (hdata : scene_msg.world_octomap_octomap.data = []) :
    readPlanningScene msgToMap self scene_msg = { self with scene_rcvd_ := false } ∧
    (readPlanningScene msgToMap self scene_msg).collision_octree_ = self.collision_octree_ ∧
    (readPlanningScene msgToMap self scene_msg).scene_rcvd_ = false ∧
    spinCycle sqrt3 toFloat buildIndex filter_type
        ⟨readPlanningScene msgToMap self scene_msg, obstacles_cloud⟩ =
      some ⟨⟨readPlanningScene msgToMap self scene_msg, obstacles_cloud⟩, false,
        publishStep sqrt3 buildIndex filter_type self obstacles_cloud⟩ ∧
    (self.map_rcvd_ = true → obstacles_cloud ≠ [] →
      publishStep sqrt3 buildIndex filter_type self obstacles_cloud =
        [Publication.colliding_reachability
          (createFilteredReachability sqrt3 self filter_type
            (buildIndex self.reachability_resolution_ obstacles_cloud)
            ⟨default, [], 0⟩ ⟨default, [], 0⟩).2,
         Publication.filtered_reachability
          (createFilteredReachability sqrt3 self filter_type
            (buildIndex self.reachability_resolution_ obstacles_cloud)
            ⟨default, [], 0⟩ ⟨default, [], 0⟩).1]) := by
  have e := readPlanningScene_of_empty (H := H) (F := F) (M := M) msgToMap self scene_msg hdata
  refine ⟨e, ?_, ?_, ?_, ?_⟩
  · rw [e]
  · rw [e]
  · rw [e]
    simp only [spinCycle, decodeStep, Bool.false_eq_true, if_false]
    rfl
  · intro hmap hne
    have hlen : (obstacles_cloud.length != 0) = true := by
      cases obstacles_cloud with
      | nil => exact absurd rfl hne
      | cons p ps => rfl
    simp only [publishStep, hmap, hlen, Bool.and_self, if_true]

/-- Witness of C17: the message without octomap data reaches the example node
holding the one-point cloud. -/
theorem readPlanningScene_empty_data_no_update_witness :
    sceneWithoutData.world_octomap_octomap.data = [] ∧
    (readPlanningScene exampleMsgToMap nodeWithVolume sceneWithoutData).collision_octree_
      = nodeWithVolume.collision_octree_ ∧
    (readPlanningScene exampleMsgToMap nodeWithVolume sceneWithoutData).scene_rcvd_ = false :=
  ⟨rfl,
    (readPlanningScene_empty_data_no_update sqrt3Double toFloat32 (buildSearchTree ⟨0, 0, 0⟩)
      exampleMsgToMap filterType.VOXEL nodeWithVolume sceneWithoutData exampleCloud rfl).2.1,
    (readPlanningScene_empty_data_no_update sqrt3Double toFloat32 (buildSearchTree ⟨0, 0, 0⟩)
      exampleMsgToMap filterType.VOXEL nodeWithVolume sceneWithoutData exampleCloud rfl).2.2.1⟩

end OrchestrationClaims

section LatticeLemmas

variable {D F : Type} [LinearOrderedField D]

/-- Membership after a loop whose every step adds to a list the elements described by `g`. -/
theorem mem_foldl_iff {α β : Type} (f : List α → β → List α) (g : β → α → Prop)
    (h : ∀ ps b x, x ∈ f ps b ↔ x ∈ ps ∨ g b x) (l : List β) (init : List α) (x : α) :
    x ∈ l.foldl f init ↔ x ∈ init ∨ ∃ b ∈ l, g b x := by
  induction l generalizing init with
  | nil => simp
  | cons b rest ih =>
    rw [List.foldl_cons, ih, h]
    simp only [List.mem_cons, exists_eq_or_imp]
    tauto

/-- The triples of offsets are those with each entry in the range of the loops. -/
theorem mem_offsetTriples (dx dy dz : ℤ) :
    (dx, dy, dz) ∈ offsetTriples ↔ dx ∈ offsetRange ∧ dy ∈ offsetRange ∧ dz ∈ offsetRange := by
  simp only [offsetTriples, List.mem_flatMap, List.mem_map, Prod.mk.injEq]
  constructor
  · rintro ⟨a, ha, b, hb, c, hc, rfl, rfl, rfl⟩
    exact ⟨ha, hb, hc⟩
  · rintro ⟨ha, hb, hc⟩
    exact ⟨dx, ha, dy, hb, dz, hc, rfl, rfl, rfl⟩

/-- The set after the loop body of a leaf: the old elements and, if the leaf is
occupied, its 27 lattice points. -/
theorem mem_insertLeaf (ps : List (List D)) (it : OcTreeLeaf D) (v : List D) :
    v ∈ insertLeaf ps it ↔
      v ∈ ps ∨ (it.isNodeOccupied = true ∧ ∃ d ∈ offsetTriples, v = latticePoint it d) := by
  unfold insertLeaf
  by_cases hocc : it.isNodeOccupied = true
  · simp only [hocc, if_true, true_and]
    rw [mem_foldl_iff _ (fun dx x => ∃ dy ∈ offsetRange, ∃ dz ∈ offsetRange,
      x = [it.getX, it.getY, it.getZ] ∨ x = latticePoint it (dx, dy, dz))]
    · constructor
      · rintro (h | ⟨dx, hdx, dy, hdy, dz, hdz, h | h⟩)
        · exact Or.inl h
        · refine Or.inr ⟨(0, 0, 0), by decide, ?_⟩
          simp [h, latticePoint]
        · exact Or.inr ⟨(dx, dy, dz), (mem_offsetTriples dx dy dz).mpr ⟨hdx, hdy, hdz⟩, h⟩
      · rintro (h | ⟨⟨dx, dy, dz⟩, hd, h⟩)
        · exact Or.inl h
        · obtain ⟨hdx, hdy, hdz⟩ := (mem_offsetTriples dx dy dz).mp hd
          exact Or.inr ⟨dx, hdx, dy, hdy, dz, hdz, Or.inr h⟩
    · intro ps1 dx x
      rw [mem_foldl_iff _ (fun dy x => ∃ dz ∈ offsetRange,
        x = [it.getX, it.getY, it.getZ] ∨ x = latticePoint it (dx, dy, dz))]
      intro ps2 dy x
      rw [mem_foldl_iff _ (fun dz x =>
        x = [it.getX, it.getY, it.getZ] ∨ x = latticePoint it (dx, dy, dz))]
      intro ps3 dz x
      simp only [insertPoint, mem_setInsert, latticePoint]
      tauto
  · simp [hocc]

/-- The elements of the set of a volume are the lattice points of its occupied leaves. -/
theorem mem_points_set (tree : OcTree D) (v : List D) :
    v ∈ points_set tree ↔
      ∃ it ∈ tree.begin_leafs tree.getTreeDepth, it.isNodeOccupied = true ∧
        ∃ d ∈ offsetTriples, v = latticePoint it d := by
  unfold points_set
  rw [mem_foldl_iff insertLeaf (fun it x => it.isNodeOccupied = true ∧
    ∃ d ∈ offsetTriples, x = latticePoint it d) (fun ps it x => mem_insertLeaf ps it x)]
  simp

/-- For a leaf of non-zero edge length, different offsets give different lattice points. -/
theorem latticePoint_injective (it : OcTreeLeaf D) (hs : it.getSize ≠ 0) :
    Function.Injective (latticePoint it) := by
  rintro ⟨a1, b1, c1⟩ ⟨a2, b2, c2⟩ h
  simp only [latticePoint, List.cons.injEq, add_right_inj, and_true] at h
  obtain ⟨h1, h2, h3⟩ := h
  have key : ∀ m n : ℤ, (m : D) * it.getSize / 2 = (n : D) * it.getSize / 2 → m = n := by
    intro m n e
    have e2 : (m : D) * it.getSize = (n : D) * it.getSize := by
      have := congrArg (fun t => t * 2) e
      simpa using this
    exact Int.cast_injective (mul_right_cancel₀ hs e2)
  rw [key a1 a2 h1, key b1 b2 h2, key c1 c2 h3]

end LatticeLemmas

section DecoderClaims

variable {D F : Type} [LinearOrderedField D]

/-- C18 (the decoder replaces the prior set): whatever the cloud holds on entry,
createObstaclesPointCloud leaves the cloud it leaves when entered with the
empty cloud, a function of the volume alone; every point of the result is the
conversion of an element of the set built from the volume, so that no point of
the previous cloud survives unless the volume produces it. -/
theorem createObstaclesPointCloud_replaces_prior (toFloat : D → F) (tree : OcTree D)
    (obstacle_vertices : List (PointXYZ F)) :
    createObstaclesPointCloud toFloat tree obstacle_vertices
      = createObstaclesPointCloud toFloat tree [] ∧
    ∀ p ∈ createObstaclesPointCloud toFloat tree obstacle_vertices,
      ∃ v ∈ points_set tree, p = cloud_point toFloat v := by
  constructor
  · rw [createObstaclesPointCloud_eq_map, createObstaclesPointCloud_eq_map]
  · intro p hp
    rw [createObstaclesPointCloud_eq_map, List.mem_map] at hp
    obtain ⟨v, hv, e⟩ := hp
    exact ⟨v, hv, e.symm⟩

/-- C20 (the 27 lattice points): for every occupied leaf of the iteration, with
center c and edge length s, each of the 27 lattice points c + (dx,dy,dz)*s/2
with dx, dy, dz in {-1, 0, 1} is in the set built by createObstaclesPointCloud
and its conversion is in the cloud; every point of the cloud is the conversion
of such a lattice point of an occupied leaf; and a volume with a single
occupied leaf with s > 0 gives a set of exactly 27 points and a cloud of 27
points, distinct when the conversion is injective (as in exact arithmetic). -/
theorem createObstaclesPointCloud_lattice_points (toFloat : D → F) (tree : OcTree D)
    (obstacle_vertices : List (PointXYZ F)) :
    (∀ it ∈ tree.begin_leafs tree.getTreeDepth, it.isNodeOccupied = true →
      ∀ d ∈ offsetTriples,
        latticePoint it d ∈ points_set tree ∧
        cloud_point toFloat (latticePoint it d)
          ∈ createObstaclesPointCloud toFloat tree obstacle_vertices) ∧
    (∀ p ∈ createObstaclesPointCloud toFloat tree obstacle_vertices,
      ∃ it ∈ tree.begin_leafs tree.getTreeDepth, it.isNodeOccupied = true ∧
        ∃ d ∈ offsetTriples, p = cloud_point toFloat (latticePoint it d)) ∧
    offsetTriples.length = 27 ∧
    (∀ it : OcTreeLeaf D, tree.begin_leafs tree.getTreeDepth = [it] →
      it.isNodeOccupied = true → 0 < it.getSize →
        (points_set tree).length = 27 ∧
        (createObstaclesPointCloud toFloat tree obstacle_vertices).length = 27 ∧
        (Function.Injective toFloat →
          (createObstaclesPointCloud toFloat tree obstacle_vertices).Nodup)) := by
  refine ⟨?_, ?_, rfl, ?_⟩
  · intro it hit hocc d hd
    have hmem : latticePoint it d ∈ points_set tree :=
      (mem_points_set tree _).mpr ⟨it, hit, hocc, d, hd, rfl⟩
    refine ⟨hmem, ?_⟩
    rw [createObstaclesPointCloud_eq_map]
    exact List.mem_map_of_mem _ hmem
  · intro p hp
    rw [createObstaclesPointCloud_eq_map, List.mem_map] at hp
    obtain ⟨v, hv, e⟩ := hp
    obtain ⟨it, hit, hocc, d, hd, rfl⟩ := (mem_points_set tree v).mp hv
    exact ⟨it, hit, hocc, d, hd, e.symm⟩
  · intro it hleaves hocc hs
    have hnd : (offsetTriples.map (latticePoint it)).Nodup :=
      List.Nodup.map (latticePoint_injective it (ne_of_gt hs)) (by decide)
    have hperm : List.Perm (points_set tree) (offsetTriples.map (latticePoint it)) := by
      rw [List.perm_ext_iff_of_nodup (points_set_nodup tree) hnd]
      intro v
      rw [mem_points_set, hleaves, List.mem_map]
      constructor
      · rintro ⟨it2, hit2, _, d, hd, rfl⟩
        rw [List.mem_singleton] at hit2
        subst hit2
        exact ⟨d, hd, rfl⟩
      · rintro ⟨d, hd, rfl⟩
        exact ⟨it, List.mem_singleton.mpr rfl, hocc, d, hd, rfl⟩
    have hlen : (points_set tree).length = 27 := by
      rw [hperm.length_eq, List.length_map]
      rfl
    refine ⟨hlen, ?_, ?_⟩
    · rw [createObstaclesPointCloud_eq_map, List.length_map, hlen]
    · intro hinj
      exact createObstaclesPointCloud_nodup_of_injective toFloat hinj tree obstacle_vertices

/-- Witness of C20: the volume with the single occupied leaf of center (0,0,0) and
edge length 2, without conversion. -/
theorem createObstaclesPointCloud_lattice_points_witness :
    singleLeafTree.begin_leafs singleLeafTree.getTreeDepth = [⟨0, 0, 0, 2, true⟩] ∧
    (0 : ℚ) < 2 ∧ Function.Injective (fun q : ℚ => q) ∧
    (points_set singleLeafTree).length = 27 ∧
    (createObstaclesPointCloud (fun q : ℚ => q) singleLeafTree []).length = 27 ∧
    (createObstaclesPointCloud (fun q : ℚ => q) singleLeafTree []).Nodup :=
  ⟨rfl, by norm_num, fun _ _ h => h,
    ((createObstaclesPointCloud_lattice_points (fun q : ℚ => q) singleLeafTree []).2.2.2
      ⟨0, 0, 0, 2, true⟩ rfl rfl (by norm_num)).1,
    ((createObstaclesPointCloud_lattice_points (fun q : ℚ => q) singleLeafTree []).2.2.2
      ⟨0, 0, 0, 2, true⟩ rfl rfl (by norm_num)).2.1,
    ((createObstaclesPointCloud_lattice_points (fun q : ℚ => q) singleLeafTree []).2.2.2
      ⟨0, 0, 0, 2, true⟩ rfl rfl (by norm_num)).2.2 (fun _ _ h => h)⟩

end DecoderClaims

section CircumscribedCover

variable {H D F M : Type} [LinearOrderedField F] [FloorRing F]

/-- Along one axis, a point in the cell whose center is `p` is at most half an edge
away from `p`. -/
theorem coord_within_half_cell (o r q p : F) (k : ℤ) (hr : 0 < r)
    (hp : p = o + ((k : F) + 1 / 2) * r) (hcell : ⌊(q - o) / r⌋ = ⌊(p - o) / r⌋) :
    (q - p) * (q - p) ≤ r / 2 * (r / 2) := by
  have hpk : (p - o) / r = (k : F) + 1 / 2 := by
    rw [hp, add_sub_cancel_left, mul_div_assoc, div_self (ne_of_gt hr), mul_one]
  have hfloor : ⌊(p - o) / r⌋ = k := by
    rw [hpk, Int.floor_int_add]
    have : ⌊(1 / 2 : F)⌋ = 0 := by
      rw [Int.floor_eq_zero_iff]
      constructor <;> norm_num
    rw [this, add_zero]
  rw [hfloor, Int.floor_eq_iff] at hcell
  obtain ⟨hlo, hhi⟩ := hcell
  have h1 : (k : F) * r ≤ q - o := by
    have := mul_le_mul_of_nonneg_right hlo (le_of_lt hr)
    rwa [div_mul_cancel₀ _ (ne_of_gt hr)] at this
  have h2 : q - o < ((k : F) + 1) * r := by
    have := mul_lt_mul_of_pos_right hhi hr
    rwa [div_mul_cancel₀ _ (ne_of_gt hr)] at this
  have hlo2 : -(r / 2) ≤ q - p := by
    rw [hp]; linarith
  have hhi2 : q - p ≤ r / 2 := by
    rw [hp]; linarith
  nlinarith

/-- A point in the cell of edge r whose center is `p` is at squared distance at
most 3 (r/2)² from `p`, i.e. at distance at most r√3/2. -/
theorem sqDist_within_cell (origin : PointXYZ F) (r : F) (q p : PointXYZ F) (kx ky kz : ℤ)
    (hr : 0 < r)
    (hx : p.x = origin.x + ((kx : F) + 1 / 2) * r)
    (hy : p.y = origin.y + ((ky : F) + 1 / 2) * r)
    (hz : p.z = origin.z + ((kz : F) + 1 / 2) * r)
    (hcell : cellOf origin r q = cellOf origin r p) :
    sqDist q p ≤ 3 * (r / 2 * (r / 2)) := by
  simp only [cellOf, Prod.mk.injEq] at hcell
  obtain ⟨cx, cy, cz⟩ := hcell
  have bx := coord_within_half_cell origin.x r q.x p.x kx hr hx cx
  have by_ := coord_within_half_cell origin.y r q.y p.y ky hr hy cy
  have bz := coord_within_half_cell origin.z r q.z p.z kz hr hz cz
  unfold sqDist
  linarith

/-- The covering property in exact arithmetic, for a value of sqrt(3) that is
non-negative with square at least 3: for a resolution r > 0 and a cached sample
at the center of its discretization cell, every obstacle point of that cell is
at squared distance at most 3 (r/2)² from the sample, and a sample that
createFilteredReachability puts in colliding_map under VOXEL is also put in
colliding_map under CIRCUMSCRIBED_SPHERE. -/
theorem circumscribed_sphere_covers_cell (sqrt3 : F)
    (self : remove_obstacles_reachability H D F M)
    (origin : PointXYZ F) (cloud : List (PointXYZ F))
    (filtered_map colliding_map : WorkSpace H F M)
    (s : WsSphere F M) (kx ky kz : ℤ)
    (hf : filtered_map.WsSpheres = []) (hc : colliding_map.WsSpheres = [])
    (hr : 0 < self.reachability_resolution_)
    (h0 : 0 ≤ sqrt3) (h3 : 3 ≤ sqrt3 * sqrt3)
    (hx : s.point.x = origin.x + ((kx : F) + 1 / 2) * self.reachability_resolution_)
    (hy : s.point.y = origin.y + ((ky : F) + 1 / 2) * self.reachability_resolution_)
    (hz : s.point.z = origin.z + ((kz : F) + 1 / 2) * self.reachability_resolution_) :
    (∀ q ∈ cloud,
      cellOf origin self.reachability_resolution_ q
          = cellOf origin self.reachability_resolution_ ⟨s.point.x, s.point.y, s.point.z⟩ →
        sqDist q ⟨s.point.x, s.point.y, s.point.z⟩
          ≤ 3 * (self.reachability_resolution_ / 2 * (self.reachability_resolution_ / 2))) ∧
    (s ∈ (createFilteredReachability sqrt3 self filterType.VOXEL
            (buildSearchTree origin self.reachability_resolution_ cloud)
            filtered_map colliding_map).2.WsSpheres →
      s ∈ (createFilteredReachability sqrt3 self filterType.CIRCUMSCRIBED_SPHERE
            (buildSearchTree origin self.reachability_resolution_ cloud)
            filtered_map colliding_map).2.WsSpheres) := by
  have hdist : ∀ q ∈ cloud,
      cellOf origin self.reachability_resolution_ q
          = cellOf origin self.reachability_resolution_ ⟨s.point.x, s.point.y, s.point.z⟩ →
        sqDist q ⟨s.point.x, s.point.y, s.point.z⟩
          ≤ 3 * (self.reachability_resolution_ / 2 * (self.reachability_resolution_ / 2)) :=
    fun q _ hcell => sqDist_within_cell origin self.reachability_resolution_ q
      ⟨s.point.x, s.point.y, s.point.z⟩ kx ky kz hr hx hy hz hcell
  refine ⟨hdist, ?_⟩
  obtain ⟨_, hv⟩ := createFilteredReachability_fresh sqrt3 self filterType.VOXEL
    (buildSearchTree origin self.reachability_resolution_ cloud) filtered_map colliding_map hf hc
  obtain ⟨_, hcs⟩ := createFilteredReachability_fresh sqrt3 self filterType.CIRCUMSCRIBED_SPHERE
    (buildSearchTree origin self.reachability_resolution_ cloud) filtered_map colliding_map hf hc
  rw [hv, hcs, List.mem_filter, List.mem_filter]
  rintro ⟨hs, hvox⟩
  refine ⟨hs, ?_⟩
  simp only [Bool.not_eq_true', decide_eq_false_iff_not, List.length_eq_zero] at hvox ⊢
  intro hrad
  apply hvox
  simp only [point_idx_vec, buildSearchTree, matchingIndices_eq_nil_iff] at hrad ⊢
  intro q hq
  have hq2 := hrad q hq
  simp only [Bool.and_eq_false_imp, decide_eq_true_eq, decide_eq_false_iff_not, not_le] at hq2
  by_contra hcell
  simp only [decide_eq_false_iff_not, not_not] at hcell
  have hradius : 0 ≤ sqrt3 * self.reachability_resolution_ / 2 :=
    div_nonneg (mul_nonneg h0 (le_of_lt hr)) (by norm_num)
  have hlt := hq2 hradius
  have hle := hdist q hq hcell
  have hsq : 0 ≤ self.reachability_resolution_ / 2 * (self.reachability_resolution_ / 2) :=
    mul_self_nonneg _
  nlinarith

/-- C19 (the circumscribed sphere covers the full voxel extent), evaluation of the
code with the `double` value of sqrt(3): resolution 1, the sample at
(1/2,1/2,1/2), center of the cell [0,1)³, and the obstacle point (0,0,0), a
corner of this cell, at distance exactly sqrt(3)/2 of the sample (squared
distance 3/4). The square of the constant is below 3, so the radius
`sqrt(3) * 1 / 2.0` of the code has a square below 3/4: the sample is put in
colliding_map under VOXEL and in filtered_map, not in colliding_map, under
CIRCUMSCRIBED_SPHERE. -/
theorem circumscribed_sphere_misses_cell_corner :
    cellOf (⟨0, 0, 0⟩ : PointXYZ ℚ) 1 ⟨0, 0, 0⟩
      = cellOf ⟨0, 0, 0⟩ 1
          ⟨cellCenterSample.point.x, cellCenterSample.point.y, cellCenterSample.point.z⟩ ∧
    sqDist (⟨0, 0, 0⟩ : PointXYZ ℚ)
        ⟨cellCenterSample.point.x, cellCenterSample.point.y, cellCenterSample.point.z⟩
      = 3 * (cellCenterNode.reachability_resolution_ / 2
          * (cellCenterNode.reachability_resolution_ / 2)) ∧
    sqrt3Double * sqrt3Double < 3 ∧
    (sqrt3Double * cellCenterNode.reachability_resolution_ / 2)
        * (sqrt3Double * cellCenterNode.reachability_resolution_ / 2) < 3 / 4 ∧
    cellCenterSample ∈
      (createFilteredReachability sqrt3Double cellCenterNode filterType.VOXEL
        (buildSearchTree ⟨0, 0, 0⟩ cellCenterNode.reachability_resolution_ [⟨0, 0, 0⟩])
        freshMap freshMap).2.WsSpheres ∧
    cellCenterSample ∉
      (createFilteredReachability sqrt3Double cellCenterNode filterType.CIRCUMSCRIBED_SPHERE
        (buildSearchTree ⟨0, 0, 0⟩ cellCenterNode.reachability_resolution_ [⟨0, 0, 0⟩])
        freshMap freshMap).2.WsSpheres ∧
    (createFilteredReachability sqrt3Double cellCenterNode filterType.CIRCUMSCRIBED_SPHERE
        (buildSearchTree ⟨0, 0, 0⟩ cellCenterNode.reachability_resolution_ [⟨0, 0, 0⟩])
        freshMap freshMap).1.WsSpheres = [cellCenterSample] := by
  decide!

end CircumscribedCover

end RemoveReachability
